import Mathlib

/-!
# Verification of the scraping-offers ranking and extraction pipeline

This file gives a shallow embedding, in Lean 4, of the pure computational core of
the repository's offer-normalization / ranking engine and of the control-flow
skeletons of its worker loop, together with theorems checking the natural-language
specification against that embedding.

Embedding conventions:

* Python `float` money/score values are modelled as `ℚ`.  All arithmetic appearing
  in the scoring functions (`+`, `-`, `*`, `/`, `min`, `max`, comparisons with
  decimal literals such as `0.5` and `0.9`) is exact on the values that occur, so
  `ℚ` is a faithful model of the computations performed.
* Python strings are Lean `String`s (sequences of Unicode code points, as in
  Python 3); `str.lower`, `str.strip`, and the substring operator `in` are
  re-implemented below (`pyLower`, `pyStrip`, `pyIn`) for the ASCII + `₹`
  alphabet actually processed.
* The regular-expression extractors (`re.search` with `re.IGNORECASE`) are
  embedded via a small backtracking regex engine (`RE`, `reSearch`) over
  `List Char`, with each source pattern hand-compiled to an `RE` value next to a
  comment quoting the original pattern.  Alternation is ordered, `*`/`+`/`?` are
  greedy, `*?` is lazy, and the search is leftmost-first, matching the semantics
  of CPython's `re.search`.  `\d`/`\s`/`\w` are modelled by their ASCII ranges
  (the processed retail text uses ASCII digits and whitespace).
* External I/O is an input of the embedding: the Gemini API helper
  `analyze_description_with_gemini` (a network call) is an oracle parameter
  `g : String → String → Option String`, and the per-URL browser extraction of
  the main worker loop is an oracle `E`.
* Python dict-backed records are Lean structures; a key that the code reads with
  `dict.get(k, default)` is a field with that default.
-/

/-! ## Python string primitives -/

/-- ASCII lower-casing of one character, as `str.lower` acts on the ASCII
letters (all other characters processed here are fixed by `lower`). -/
def pyLowerChar (c : Char) : Char :=
  if 'A' ≤ c ∧ c ≤ 'Z' then Char.ofNat (c.toNat + 32) else c

/-- `str.lower` on the alphabet processed by the scrapers. -/
def pyLower (s : String) : String := ⟨s.data.map pyLowerChar⟩

/-- Python `str` whitespace, ASCII part (`str.strip`'s default set). -/
def isPySpace (c : Char) : Bool :=
  c == ' ' || c == '\t' || c == '\n' || c == '\r' || c == '\x0b' || c == '\x0c'

/-- `str.strip()` with the default whitespace set. -/
def pyStrip (s : String) : String :=
  ⟨((s.data.dropWhile isPySpace).reverse.dropWhile isPySpace).reverse⟩

/-- `needle` is a prefix of `hay` (Boolean, executable). -/
def listStartsWith : List Char → List Char → Bool
  | [], _ => true
  | _ :: _, [] => false
  | c :: cs, d :: ds => c == d && listStartsWith cs ds

/-- `needle in hay` for `List Char` (Python substring containment). -/
def listContains (hay needle : List Char) : Bool :=
  match hay with
  | [] => listStartsWith needle []
  | _ :: rest => listStartsWith needle hay || listContains rest needle

/-- Python's substring test `needle in hay` on strings. -/
def pyIn (needle hay : String) : Bool := listContains hay.data needle.data

/-- ASCII decimal digit (`\d` on the ASCII text processed here). -/
def isPyDigit (c : Char) : Bool := '0' ≤ c && c ≤ '9'

/-- regex word character (`\w` / the `\b` boundary classes), ASCII part. -/
def isWordChar (c : Char) : Bool :=
  isPyDigit c || ('a' ≤ c && c ≤ 'z') || ('A' ≤ c && c ≤ 'Z') || c == '_'

/-! ## A small backtracking regex engine

Priority-correct embedding of the fragment of Python `re` used by the
extractors: ordered alternation, greedy `*` `+` `?`, lazy `*?`, character
classes, capture groups, and the word boundary `\b`.  `reM` is a CPS matcher;
the fuel argument only bounds the recursion depth (each nested call consumes
one unit) and is chosen large enough to be irrelevant on the inputs evaluated. -/

inductive RE where
  | eps
  | cls (p : Char → Bool)
  | seq (a b : RE)
  | alt (a b : RE)
  | star (r : RE)
  | starL (r : RE)
  | opt (r : RE)
  | group (n : Nat) (r : RE)
  | wordB

/-- Captured groups, most recent binding first. -/
abbrev Caps := List (Nat × List Char)

def getCap (caps : Caps) (n : Nat) : Option (List Char) :=
  (caps.find? (fun x => x.1 == n)).map (fun x => x.2)

/-- CPS backtracking matcher.  `prev` is the character just before the current
position (for `\b`), `k` the continuation receiving the new `prev`, the rest of
the input, and the captures.  Returns the first success in Python's
backtracking priority order. -/
def reM (fuel : Nat) (r : RE) (prev : Option Char) (s : List Char) (caps : Caps)
    (k : Option Char → List Char → Caps → Option Caps) : Option Caps :=
  match fuel with
  | 0 => none
  | fuel + 1 =>
    match r with
    | .eps => k prev s caps
    | .cls p =>
      match s with
      | [] => none
      | c :: rest => if p c then k (some c) rest caps else none
    | .seq a b => reM fuel a prev s caps (fun pv s' cp => reM fuel b pv s' cp k)
    | .alt a b => (reM fuel a prev s caps k).orElse (fun _ => reM fuel b prev s caps k)
    | .star r =>
      (reM fuel r prev s caps (fun pv s' cp =>
        if s'.length < s.length then reM fuel (.star r) pv s' cp k else none)).orElse
        (fun _ => k prev s caps)
    | .starL r =>
      (k prev s caps).orElse (fun _ =>
        reM fuel r prev s caps (fun pv s' cp =>
          if s'.length < s.length then reM fuel (.starL r) pv s' cp k else none))
    | .opt r => (reM fuel r prev s caps k).orElse (fun _ => k prev s caps)
    | .group n r =>
      reM fuel r prev s caps (fun pv s' cp =>
        k pv s' ((n, s.take (s.length - s'.length)) :: cp))
    | .wordB =>
      let before := match prev with | some c => isWordChar c | none => false
      let after := match s with | c :: _ => isWordChar c | [] => false
      if before != after then k prev s caps else none

/-- Structural size of a pattern, used to dimension the fuel. -/
def sizeRE : RE → Nat
  | .eps => 1
  | .cls _ => 1
  | .seq a b => sizeRE a + sizeRE b + 1
  | .alt a b => sizeRE a + sizeRE b + 1
  | .star r => sizeRE r + 1
  | .starL r => sizeRE r + 1
  | .opt r => sizeRE r + 1
  | .group _ r => sizeRE r + 1
  | .wordB => 1

/-- Try to match at the current position, else advance one character:
`re.search`'s leftmost-match rule. -/
def reSearchAux (fuel : Nat) (r : RE) (prev : Option Char) (s : List Char) : Option Caps :=
  match reM fuel r prev s [] (fun _ _ cp => some cp) with
  | some cp => some cp
  | none =>
    match s with
    | [] => none
    | c :: rest => reSearchAux fuel r (some c) rest

/-- `re.search(pattern, s)`, returning the captures of the match if any. -/
def reSearch (r : RE) (s : List Char) : Option Caps :=
  reSearchAux ((sizeRE r + 2) * (s.length + 2) * 2) r none s

/-! ### Pattern combinators -/

def rSeq : List RE → RE
  | [] => .eps
  | [r] => r
  | r :: rs => .seq r (rSeq rs)

def rChar (c : Char) : RE := .cls (fun x => x == c)

/-- Case-insensitive literal character (`re.IGNORECASE`). -/
def rCharCI (c : Char) : RE := .cls (fun x => pyLowerChar x == pyLowerChar c)

def rLit (t : String) : RE := rSeq (t.data.map rChar)

def rLitCI (t : String) : RE := rSeq (t.data.map rCharCI)

def rPlus (r : RE) : RE := .seq r (.star r)

/-- `\s+` -/
def rWs1 : RE := rPlus (.cls isPySpace)

/-- `\s*` -/
def rWsStar : RE := .star (.cls isPySpace)

/-- `([\d,]+\.?\d*)` as capture group `n`. -/
def rAmtGroup (n : Nat) : RE :=
  .group n (rSeq [rPlus (.cls (fun c => isPyDigit c || c == ',')),
                  .opt (rChar '.'), .star (.cls isPyDigit)])

/-- `([\d.]+)` as capture group `n`. -/
def rPctGroup (n : Nat) : RE := .group n (rPlus (.cls (fun c => isPyDigit c || c == '.')))

/-- `(?:INR\s+|₹\s*)` -/
def rMoneyPre : RE := .alt (.seq (rLitCI "INR") rWs1) (.seq (rLitCI "₹") rWsStar)

/-- `(?:INR\s+|₹\s*|Rs\.?\s*)` (Flipkart variant). -/
def rMoneyPreRs : RE :=
  .alt (.seq (rLitCI "INR") rWs1)
    (.alt (.seq (rLitCI "₹") rWsStar)
      (rSeq [rLitCI "Rs", .opt (rChar '.'), rWsStar]))

/-- `.` (any character but a newline). -/
def rDot : RE := .cls (fun c => c != '\n')

/-- `[^,\.;]+` -/
def rNotPunct1 : RE := rPlus (.cls (fun c => !(c == ',' || c == '.' || c == ';')))

/-! ## Stable sorting

Python's `list.sort(key=…, reverse=True)` is a stable descending sort.  Any
stable sort computes the same list, so we model it with a stable insertion
sort: an element is inserted after every strictly greater key and before every
equal one (preserving original order among ties). -/

def stableInsertDesc (key : α → ℚ) (x : α) : List α → List α
  | [] => [x]
  | y :: ys => if key y > key x then y :: stableInsertDesc key x ys else x :: y :: ys

def stableSortDesc (key : α → ℚ) : List α → List α
  | [] => []
  | x :: xs => stableInsertDesc key x (stableSortDesc key xs)

/-! ## Python float conversion

`float(captured.replace(',', ''))` where `captured` was produced by one of the
numeric capture groups (so it consists of digits and at most one dot once the
commas are removed).  Returns `none` exactly when CPython's `float` raises
`ValueError` on such strings (no digit at all, e.g. `""` or `"."`). -/

def stripCommas (s : List Char) : List Char := s.filter (fun c => c != ',')

def digitsVal (s : List Char) : ℕ := s.foldl (fun a c => 10 * a + (c.toNat - '0'.toNat)) 0

/-- Integer part, fractional digits, and fractional length of the decimal
string (the ℕ-level half of `float`). -/
def pyFloatParts (s : List Char) : Option (ℕ × ℕ × ℕ) :=
  if s.any isPyDigit && s.all (fun c => isPyDigit c || c == '.')
      && (s.filter (fun c => c == '.')).length ≤ 1 then
    let ip := s.takeWhile (fun c => c != '.')
    let fp := (s.dropWhile (fun c => c != '.')).drop 1
    some (digitsVal ip, digitsVal fp, fp.length)
  else none

def partsToRat : ℕ × ℕ × ℕ → ℚ
  | (i, f, k) => (i : ℚ) + (f : ℚ) / (10 : ℚ) ^ k

def pyFloat (s : List Char) : Option ℚ := (pyFloatParts s).map partsToRat

/-- Try patterns in order; on the first `re.search` hit return capture group `g`
of that match (all the embedded patterns always bind their numeric groups). -/
def firstCapture (g : Nat) : List RE → List Char → Option (List Char)
  | [], _ => none
  | p :: rest, s =>
    match reSearch p s with
    | some caps => getCap caps g
    | none => firstCapture g rest s

/-! ## Shared offer data model

`Offer` is the parsed-offer dataclass (amazon scraper lines 956-969; the
Flipkart scraper's dataclass is the same minus `validity`/`card_provider`,
which its ranking code emits as `None`).  `RankedOffer` is the result record
built by `rank_offers`; the human-readable `note` string (deterministically
derived from the other fields by `generate_comprehensive_note`) is omitted, as
no claim concerns its contents. -/

structure Offer where
  title : String
  description : String
  amount : ℚ
  type : String
  bank : Option String
  validity : Option String
  min_spend : Option ℚ
  is_instant : Bool
  card_type : Option String
  card_provider : Option String
deriving DecidableEq

structure RankedOffer where
  title : String
  description : String
  amount : ℚ
  bank : Option String
  validity : Option String
  min_spend : Option ℚ
  score : Option ℚ
  is_instant : Bool
  net_effective_price : ℚ
  is_applicable : Bool
  offer_type : String
  card_type : Option String
  card_provider : Option String
  rank : Option ℕ
deriving DecidableEq

/-- Raw offer dict as consumed by the Amazon analyzer's `parse_offer`
(`offer.get('card_type', '')`, `offer.get('offer_description', '')`). -/
structure RawOffer where
  card_type : String := ""
  offer_description : String := ""
deriving DecidableEq

/-- Raw offer dict as consumed by the Flipkart analyzer's `parse_offer`
(`offer.get('description', '')`, `offer.get('card_type', 'Flipkart Offer')`;
the latter distinguishes a missing key, hence `Option`). -/
structure FlipkartRawOffer where
  card_type : Option String := none
  description : String := ""
deriving DecidableEq

/-- `rank #idx+1` assignment loop (`for idx, offer in enumerate(...)`): give the
`i`-th record of the sorted list rank `i+1`. -/
def assignRanks : List RankedOffer → ℕ → List RankedOffer
  | [], _ => []
  | r :: rs, i => { r with rank := some i } :: assignRanks rs (i + 1)

/-- First-match association lookup (Python dict access on the literal tables). -/
def lookupAssoc (tbl : List (String × α)) (k : String) : Option α :=
  (tbl.find? (fun x => x.1 == k)).map (fun x => x.2)

/-! ## Canonical name tables (transcribed verbatim from the source dict literals)

The `…KeysSorted` lists are `sorted(bank_scores.keys(), key=len, reverse=True)`
precomputed: Python's sort is stable, so keys of equal length keep their dict
insertion order. -/

def amazonBankNamePatterns : List (String × List String) := [
  ("State Bank of India", ["SBI", "State Bank", "State Bank of India", "SBI Bank"]),
  ("Punjab National Bank", ["PNB", "Punjab National Bank", "PNB Bank"]),
  ("Bank of Baroda", ["BoB", "Bank of Baroda", "Baroda", "BoB Bank"]),
  ("Canara Bank", ["Canara", "Canara Bank"]),
  ("Union Bank of India", ["Union Bank", "Union Bank of India"]),
  ("Indian Bank", ["Indian Bank"]),
  ("Bank of India", ["Bank of India"]),
  ("UCO Bank", ["UCO", "UCO Bank"]),
  ("Indian Overseas Bank", ["IOB", "Indian Overseas Bank", "IOB Bank"]),
  ("Central Bank of India", ["Central Bank", "Central Bank of India"]),
  ("Bank of Maharashtra", ["Bank of Maharashtra", "Maharashtra Bank"]),
  ("Punjab & Sind Bank", ["Punjab & Sind Bank"]),
  ("HDFC Bank", ["HDFC", "HDFC Bank"]),
  ("ICICI Bank", ["ICICI", "ICICI Bank"]),
  ("Axis Bank", ["Axis", "Axis Bank"]),
  ("Kotak Mahindra Bank", ["Kotak", "Kotak Mahindra", "Kotak Mahindra Bank"]),
  ("IndusInd Bank", ["IndusInd", "IndusInd Bank"]),
  ("Yes Bank", ["Yes Bank", "YES Bank"]),
  ("IDFC FIRST Bank", ["IDFC", "IDFC FIRST", "IDFC Bank"]),
  ("Federal Bank", ["Federal", "Federal Bank"]),
  ("South Indian Bank", ["South Indian Bank"]),
  ("RBL Bank", ["RBL", "RBL Bank"]),
  ("DCB Bank", ["DCB Bank"]),
  ("Tamilnad Mercantile Bank", ["TMB", "Tamilnad Mercantile Bank"]),
  ("Karur Vysya Bank", ["Karur Vysya Bank"]),
  ("CSB Bank", ["CSB Bank"]),
  ("City Union Bank", ["City Union Bank"]),
  ("Bandhan Bank", ["Bandhan Bank"]),
  ("Jammu & Kashmir Bank", ["Jammu & Kashmir Bank"]),
  ("AU Small Finance Bank", ["AU Bank", "AU Small Finance", "AU", "AU Small Finance Bank"]),
  ("Equitas Small Finance Bank", ["Equitas", "Equitas Bank", "Equitas Small Finance Bank"]),
  ("Ujjivan Small Finance Bank", ["Ujjivan", "Ujjivan Bank", "Ujjivan Small Finance Bank"]),
  ("Suryoday Small Finance Bank", ["Suryoday Small Finance Bank"]),
  ("ESAF Small Finance Bank", ["ESAF Small Finance Bank"]),
  ("Fincare Small Finance Bank", ["Fincare Small Finance Bank"]),
  ("Jana Small Finance Bank", ["Jana Small Finance Bank"]),
  ("North East Small Finance Bank", ["North East Small Finance Bank"]),
  ("Capital Small Finance Bank", ["Capital Small Finance Bank"]),
  ("Unity Small Finance Bank", ["Unity Small Finance Bank"]),
  ("Shivalik Small Finance Bank", ["Shivalik Small Finance Bank"]),
  ("Citibank", ["Citi", "Citibank", "CitiBank"]),
  ("HSBC Bank", ["HSBC", "HSBC Bank"]),
  ("Standard Chartered Bank", ["Standard Chartered", "StanChart", "SC Bank", "Standard Chartered Bank"]),
  ("Deutsche Bank", ["Deutsche Bank"]),
  ("Barclays Bank", ["Barclays Bank"]),
  ("DBS Bank", ["DBS", "DBS Bank"]),
  ("JP Morgan Chase Bank", ["JP Morgan Chase Bank"]),
  ("Bank of America", ["Bank of America"]),
  ("Saraswat Co-operative Bank", ["Saraswat Co-operative Bank"]),
  ("Shamrao Vithal Co-operative Bank", ["Shamrao Vithal Co-operative Bank"]),
  ("PMC Bank", ["PMC Bank"]),
  ("TJSB Sahakari Bank", ["TJSB Sahakari Bank"]),
  ("American Express", ["Amex", "American Express"]),
  ("PhonePe", ["PhonePe", "Phone Pe", "Phonepe"]),
  ("Google Pay", ["Google Pay", "GooglePay", "G Pay", "GPay"]),
  ("Paytm", ["Paytm", "PayTM", "PAYTM"]),
  ("BHIM", ["BHIM", "Bharat Interface for Money"]),
  ("Amazon Pay", ["Amazon Pay", "AmazonPay", "Amazon Pay UPI"]),
  ("MobiKwik", ["MobiKwik", "Mobikwik", "Mobi Kwik"]),
  ("Freecharge", ["Freecharge", "Free Charge", "FreeCharge"]),
  ("Airtel Payments Bank", ["Airtel Payments Bank", "Airtel Bank", "Airtel Payments"]),
  ("JioMoney", ["JioMoney", "Jio Money", "Jio"]),
  ("PayZapp", ["PayZapp", "Pay Zapp", "Payzapp"]),
  ("CRED", ["CRED", "Cred"]),
  ("Navi", ["Navi", "NAVI"]),
  ("WhatsApp Pay", ["WhatsApp Pay", "WhatsAppPay", "WhatsApp"]),
  ("YONO by SBI", ["YONO by SBI", "YONO", "Yono", "YONO SBI"]),
  ("Ola Money", ["Ola Money", "OlaMoney", "Ola"]),
  ("Slice", ["Slice", "SLICE"]),
  ("Pockets by ICICI Bank", ["Pockets by ICICI Bank", "Pockets", "ICICI Pockets"]),
  ("Super Money", ["Super Money", "SuperMoney"]),
  ("Freo", ["Freo", "FREO"]),
  ("Jupiter", ["Jupiter", "JUPITER"]),
  ("InstantPay", ["InstantPay", "Instant Pay", "Instantpay"]),
  ("FamPay", ["FamPay", "Fam Pay", "Fampay"]),
  ("Finin", ["Finin", "FININ"]),
  ("OneCard", ["OneCard", "One Card", "Onecard"]),
  ("UPI", ["UPI", "upi", "Unified Payments Interface"])
]

def amazonBankScoresKeysSorted : List String := [
  "Shamrao Vithal Co-operative Bank",
  "North East Small Finance Bank",
  "Suryoday Small Finance Bank",
  "Shivalik Small Finance Bank",
  "Equitas Small Finance Bank",
  "Ujjivan Small Finance Bank",
  "Fincare Small Finance Bank",
  "Capital Small Finance Bank",
  "Saraswat Co-operative Bank",
  "Tamilnad Mercantile Bank",
  "Unity Small Finance Bank",
  "ESAF Small Finance Bank",
  "Jana Small Finance Bank",
  "Standard Chartered Bank",
  "Central Bank of India",
  "AU Small Finance Bank",
  "Pockets by ICICI Bank",
  "Punjab National Bank",
  "Indian Overseas Bank",
  "Jammu & Kashmir Bank",
  "JP Morgan Chase Bank",
  "Airtel Payments Bank",
  "State Bank of India",
  "Union Bank of India",
  "Bank of Maharashtra",
  "Kotak Mahindra Bank",
  "Punjab & Sind Bank",
  "TJSB Sahakari Bank",
  "South Indian Bank",
  "Karur Vysya Bank",
  "American Express",
  "IDFC FIRST Bank",
  "City Union Bank",
  "Bank of America",
  "Bank of Baroda",
  "Bank of India",
  "IndusInd Bank",
  "Deutsche Bank",
  "Barclays Bank",
  "Federal Bank",
  "Bandhan Bank",
  "WhatsApp Pay",
  "Canara Bank",
  "Indian Bank",
  "YONO by SBI",
  "Super Money",
  "ICICI Bank",
  "Google Pay",
  "Amazon Pay",
  "Freecharge",
  "InstantPay",
  "HDFC Bank",
  "Axis Bank",
  "HSBC Bank",
  "Ola Money",
  "UCO Bank",
  "Yes Bank",
  "RBL Bank",
  "DCB Bank",
  "CSB Bank",
  "Citibank",
  "DBS Bank",
  "PMC Bank",
  "MobiKwik",
  "JioMoney",
  "PhonePe",
  "PayZapp",
  "Jupiter",
  "OneCard",
  "FamPay",
  "Paytm",
  "Slice",
  "Finin",
  "BHIM",
  "CRED",
  "Navi",
  "Freo",
  "UPI"
]

def amazonBankVariations : List (String × String) := [
  ("hdfc", "HDFC Bank"),
  ("icici", "ICICI Bank"),
  ("axis", "Axis Bank"),
  ("sbi", "State Bank of India"),
  ("kotak", "Kotak Mahindra Bank"),
  ("yes", "Yes Bank"),
  ("idfc", "IDFC FIRST Bank"),
  ("indusind", "IndusInd Bank"),
  ("federal", "Federal Bank"),
  ("rbl", "RBL Bank"),
  ("citi", "Citibank"),
  ("hsbc", "HSBC Bank"),
  ("standard chartered", "Standard Chartered Bank"),
  ("au bank", "AU Small Finance Bank"),
  ("equitas", "Equitas Small Finance Bank"),
  ("ujjivan", "Ujjivan Small Finance Bank"),
  ("pnb", "Punjab National Bank"),
  ("bob", "Bank of Baroda"),
  ("canara", "Canara Bank"),
  ("union bank", "Union Bank of India"),
  ("indian bank", "Indian Bank"),
  ("bank of india", "Bank of India"),
  ("uco", "UCO Bank"),
  ("iob", "Indian Overseas Bank"),
  ("central bank", "Central Bank of India"),
  ("amex", "American Express"),
  ("american express", "American Express")
]

def amazonCardProviders : List String := ["Visa", "Mastercard", "RuPay", "American Express", "Amex", "Diners Club", "Discover", "UnionPay", "JCB", "Maestro", "Cirrus", "PLUS"]

def flipkartBankNamePatterns : List (String × List String) := [
  ("SBI", ["SBI", "State Bank", "State Bank of India", "State Bank of India"]),
  ("HDFC", ["HDFC", "HDFC Bank", "HDFC Bank Limited"]),
  ("ICICI", ["ICICI", "ICICI Bank", "ICICI Bank Limited"]),
  ("Axis", ["Axis", "Axis Bank", "Axis Bank Limited"]),
  ("Kotak", ["Kotak", "Kotak Mahindra", "Kotak Mahindra Bank"]),
  ("Yes Bank", ["Yes Bank", "YES Bank", "Yes Bank Limited"]),
  ("IDFC", ["IDFC", "IDFC FIRST", "IDFC Bank", "IDFC FIRST Bank"]),
  ("IndusInd", ["IndusInd", "IndusInd Bank", "IndusInd Bank Limited"]),
  ("Federal", ["Federal", "Federal Bank", "Federal Bank Limited"]),
  ("RBL", ["RBL", "RBL Bank", "RBL Bank Limited"]),
  ("Citi", ["Citi", "Citibank", "CitiBank", "Citibank N.A."]),
  ("HSBC", ["HSBC", "HSBC Bank", "HSBC Bank India"]),
  ("Standard Chartered", ["Standard Chartered", "StanChart", "SC Bank", "Standard Chartered Bank"]),
  ("AU Bank", ["AU Bank", "AU Small Finance", "AU", "AU Small Finance Bank"]),
  ("Equitas", ["Equitas", "Equitas Bank", "Equitas Small Finance Bank"]),
  ("PNB", ["PNB", "Punjab National Bank", "Punjab National Bank Limited"]),
  ("BoB", ["BoB", "Bank of Baroda", "Bank of Baroda Limited"]),
  ("Canara", ["Canara", "Canara Bank", "Canara Bank Limited"]),
  ("Union Bank", ["Union Bank", "Union Bank of India", "Union Bank of India Limited"]),
  ("Indian Bank", ["Indian Bank", "Indian Bank Limited"]),
  ("Bank of India", ["Bank of India", "Bank of India Limited"]),
  ("UCO Bank", ["UCO Bank", "UCO Bank Limited"]),
  ("Indian Overseas Bank", ["Indian Overseas Bank", "IOB", "Indian Overseas Bank Limited"]),
  ("Central Bank", ["Central Bank", "Central Bank of India", "Central Bank of India Limited"]),
  ("Bank of Maharashtra", ["Bank of Maharashtra", "Bank of Maharashtra Limited"]),
  ("Punjab & Sind Bank", ["Punjab & Sind Bank", "Punjab & Sind Bank Limited"]),
  ("Karnataka Bank", ["Karnataka Bank", "Karnataka Bank Limited"]),
  ("Karnataka", ["Karnataka", "Karnataka Bank", "Karnataka Bank Limited"]),
  ("South Indian Bank", ["South Indian Bank", "South Indian Bank Limited"]),
  ("DCB Bank", ["DCB Bank", "DCB", "Development Credit Bank"]),
  ("Tamilnad Mercantile Bank", ["Tamilnad Mercantile Bank", "TMB", "Tamilnad Mercantile Bank Limited"]),
  ("Karur Vysya Bank", ["Karur Vysya Bank", "KVB", "Karur Vysya Bank Limited"]),
  ("CSB Bank", ["CSB Bank", "CSB", "Catholic Syrian Bank"]),
  ("City Union Bank", ["City Union Bank", "CUB", "City Union Bank Limited"]),
  ("Bandhan Bank", ["Bandhan Bank", "Bandhan Bank Limited"]),
  ("Jammu & Kashmir Bank", ["Jammu & Kashmir Bank", "J&K Bank", "Jammu & Kashmir Bank Limited"]),
  ("American Express", ["American Express", "Amex", "AmEx", "American Express Bank"]),
  ("PhonePe", ["PhonePe", "Phone Pe"]),
  ("Google Pay", ["Google Pay", "GPay", "G Pay"]),
  ("Paytm", ["Paytm"]),
  ("BHIM", ["BHIM", "BHIM UPI"]),
  ("Amazon Pay", ["Amazon Pay", "AmazonPay"]),
  ("MobiKwik", ["MobiKwik", "Mobi Kwik"]),
  ("Freecharge", ["Freecharge", "Free Charge"]),
  ("Airtel Payments Bank", ["Airtel Payments Bank", "Airtel Payment Bank", "Airtel Bank"]),
  ("JioMoney", ["JioMoney", "Jio Money"]),
  ("PayZapp", ["PayZapp", "Pay Zapp"]),
  ("CRED", ["CRED"]),
  ("Navi", ["Navi"]),
  ("WhatsApp Pay", ["WhatsApp Pay", "Whatsapp Pay", "WhatsApp UPI", "Whatsapp UPI"]),
  ("YONO", ["YONO", "YONO by SBI", "SBI YONO"]),
  ("Ola Money", ["Ola Money"]),
  ("Slice", ["Slice"]),
  ("Pockets by ICICI Bank", ["Pockets", "Pockets by ICICI", "Pockets by ICICI Bank"]),
  ("Super Money", ["Super Money", "SuperMoney"]),
  ("Freo", ["Freo"]),
  ("Jupiter", ["Jupiter"]),
  ("InstantPay", ["InstantPay", "Instant Pay"]),
  ("FamPay", ["FamPay", "Fam Pay"]),
  ("Finin", ["Finin"]),
  ("OneCard", ["OneCard", "One Card"])
]

def flipkartBankScoresKeysSorted : List String := [
  "Equitas Small Finance Bank",
  "Ujjivan Small Finance Bank",
  "Tamilnad Mercantile Bank",
  "Central Bank of India",
  "AU Small Finance Bank",
  "Punjab National Bank",
  "Indian Overseas Bank",
  "Jammu & Kashmir Bank",
  "JP Morgan Chase Bank",
  "State Bank of India",
  "Union Bank of India",
  "Bank of Maharashtra",
  "Kotak Mahindra Bank",
  "Punjab & Sind Bank",
  "Standard Chartered",
  "South Indian Bank",
  "Karur Vysya Bank",
  "American Express",
  "IDFC FIRST Bank",
  "City Union Bank",
  "Bank of America",
  "Bank of Baroda",
  "Bank of India",
  "IndusInd Bank",
  "Deutsche Bank",
  "Barclays Bank",
  "Federal Bank",
  "Bandhan Bank",
  "Canara Bank",
  "Indian Bank",
  "ICICI Bank",
  "HDFC Bank",
  "Axis Bank",
  "UCO Bank",
  "Yes Bank",
  "RBL Bank",
  "DCB Bank",
  "CSB Bank",
  "Citibank",
  "DBS Bank",
  "AU Bank",
  "Equitas",
  "Ujjivan",
  "ICICI",
  "Kotak",
  "HDFC",
  "Axis",
  "IDFC",
  "Citi",
  "HSBC",
  "Amex",
  "SBI",
  "PNB",
  "BoB",
  "IOB",
  "TMB"
]

def flipkartBankScores : List (String × Int) := [
  ("SBI", 75),
  ("State Bank of India", 75),
  ("PNB", 72),
  ("Punjab National Bank", 72),
  ("BoB", 70),
  ("Bank of Baroda", 70),
  ("Canara Bank", 68),
  ("Union Bank of India", 65),
  ("Indian Bank", 65),
  ("Bank of India", 65),
  ("UCO Bank", 62),
  ("Indian Overseas Bank", 62),
  ("IOB", 62),
  ("Central Bank of India", 62),
  ("Bank of Maharashtra", 60),
  ("Punjab & Sind Bank", 60),
  ("HDFC", 85),
  ("HDFC Bank", 85),
  ("ICICI", 90),
  ("ICICI Bank", 90),
  ("Axis", 80),
  ("Axis Bank", 80),
  ("Kotak", 70),
  ("Kotak Mahindra Bank", 70),
  ("IndusInd Bank", 68),
  ("Yes Bank", 60),
  ("IDFC FIRST Bank", 65),
  ("IDFC", 65),
  ("Federal Bank", 63),
  ("South Indian Bank", 60),
  ("RBL Bank", 62),
  ("DCB Bank", 60),
  ("Tamilnad Mercantile Bank", 58),
  ("TMB", 58),
  ("Karur Vysya Bank", 58),
  ("CSB Bank", 58),
  ("City Union Bank", 58),
  ("Bandhan Bank", 60),
  ("Jammu & Kashmir Bank", 58),
  ("AU Small Finance Bank", 65),
  ("AU Bank", 65),
  ("Equitas Small Finance Bank", 62),
  ("Equitas", 62),
  ("Ujjivan Small Finance Bank", 60),
  ("Ujjivan", 60),
  ("Citi", 80),
  ("Citibank", 80),
  ("HSBC", 78),
  ("Standard Chartered", 75),
  ("Deutsche Bank", 75),
  ("Barclays Bank", 75),
  ("DBS Bank", 72),
  ("JP Morgan Chase Bank", 75),
  ("Bank of America", 75),
  ("Amex", 85),
  ("American Express", 85)
]

def flipkartBankKeywords : List String := [
  "bank",
  "card",
  "credit",
  "debit",
  "hdfc",
  "icici",
  "axis",
  "sbi",
  "kotak",
  "pnb",
  "bob",
  "canara",
  "union bank",
  "indian bank",
  "bank of india",
  "uco bank",
  "iob",
  "central bank",
  "bank of maharashtra",
  "punjab & sind bank",
  "karnataka bank",
  "south indian bank",
  "dcb bank",
  "tmb",
  "karur vysya bank",
  "csb bank",
  "city union bank",
  "bandhan bank",
  "jammu & kashmir bank",
  "american express",
  "amex",
  "citibank",
  "hsbc",
  "onecard",
  "standard chartered",
  "au bank",
  "equitas",
  "rbl bank",
  "federal bank",
  "idfc",
  "yes bank"
]

def chromeDriverErrorKeywords : List String := ["chrome not reachable", "session not created", "invalid session id", "no such window", "stale element reference", "timeout", "connection refused", "too many open files", "errno 24", "errno 111", "max retries exceeded", "newconnectionerror", "connection broken", "webdriver exception", "selenium.common.exceptions", "undetected_chromedriver"]
def httpConnectionErrorKeywords : List String := ["connection refused", "connection aborted", "connection reset", "max retries exceeded", "newconnectionerror", "connection broken", "timeout", "unreachable", "network is unreachable"]
def fileDescriptorErrorKeywords : List String := ["too many open files", "errno 24", "resource temporarily unavailable"]
def sessionErrorKeywords : List String := ["session not created", "invalid session id", "no such window", "stale element reference", "chrome not reachable"]
def maxRetryErrorKeywords : List String := ["max retries exceeded", "retry", "timeout", "connection"]


/-! ## Amazon `OfferAnalyzer` (enhanced_amazon_scraper.py)

Each `RE` below is the hand-compiled form of the regex quoted in the comment
above it; all of these are used with `re.IGNORECASE` unless noted. -/

namespace OfferAnalyzer

/-- Flat discount patterns of `extract_amount`, in source order:
`(?:Additional\s+)?[Ff]lat\s+(?:INR\s+|₹\s*)([\d,]+\.?\d*)`,
`(?:Additional\s+)?(?:INR\s+|₹\s*)([\d,]+\.?\d*)\s+(?:Instant\s+)?Discount`,
`(?:Get\s+)?(?:INR\s+|₹\s*)([\d,]+\.?\d*)\s+(?:off|discount)`,
`(?:Save\s+)?(?:INR\s+|₹\s*)([\d,]+\.?\d*)`,
`₹\s*([\d,]+\.?\d*)`. -/
def flatAmountPats : List RE :=
  [rSeq [.opt (.seq (rLitCI "Additional") rWs1), rLitCI "Flat", rWs1, rMoneyPre, rAmtGroup 1],
   rSeq [.opt (.seq (rLitCI "Additional") rWs1), rMoneyPre, rAmtGroup 1, rWs1,
         .opt (.seq (rLitCI "Instant") rWs1), rLitCI "Discount"],
   rSeq [.opt (.seq (rLitCI "Get") rWs1), rMoneyPre, rAmtGroup 1, rWs1,
         .alt (rLitCI "off") (rLitCI "discount")],
   rSeq [.opt (.seq (rLitCI "Save") rWs1), rMoneyPre, rAmtGroup 1],
   rSeq [rLitCI "₹", rWsStar, rAmtGroup 1]]

/-- Percentage-with-cap patterns of `extract_amount` (the cap is group 2):
`([\d.]+)%\s+(?:Instant\s+)?Discount\s+up\s+to\s+(?:INR\s+|₹\s*)([\d,]+\.?\d*)`,
`Up\s+to\s+([\d.]+)%\s+(?:off|discount).*?(?:max|maximum|up\s+to)\s+(?:INR\s+|₹\s*)([\d,]+\.?\d*)`,
`([\d.]+)%\s+(?:off|discount).*?(?:capped\s+at|maximum)\s+(?:INR\s+|₹\s*)([\d,]+\.?\d*)`. -/
def percentAmountPats : List RE :=
  [rSeq [rPctGroup 1, rLitCI "%", rWs1, .opt (.seq (rLitCI "Instant") rWs1), rLitCI "Discount",
         rWs1, rLitCI "up", rWs1, rLitCI "to", rWs1, rMoneyPre, rAmtGroup 2],
   rSeq [rLitCI "Up", rWs1, rLitCI "to", rWs1, rPctGroup 1, rLitCI "%", rWs1,
         .alt (rLitCI "off") (rLitCI "discount"), .starL rDot,
         .alt (rLitCI "max") (.alt (rLitCI "maximum") (rSeq [rLitCI "up", rWs1, rLitCI "to"])),
         rWs1, rMoneyPre, rAmtGroup 2],
   rSeq [rPctGroup 1, rLitCI "%", rWs1, .alt (rLitCI "off") (rLitCI "discount"), .starL rDot,
         .alt (rSeq [rLitCI "capped", rWs1, rLitCI "at"]) (rLitCI "maximum"),
         rWs1, rMoneyPre, rAmtGroup 2]]

/-- Cashback patterns of `extract_amount`:
`(?:Get\s+)?(?:INR\s+|₹\s*)([\d,]+\.?\d*)\s+(?:cashback|cash\s+back)`,
`(?:Earn\s+)?(?:INR\s+|₹\s*)([\d,]+\.?\d*)\s+(?:cashback|cash\s+back)`. -/
def cashbackAmountPats : List RE :=
  [rSeq [.opt (.seq (rLitCI "Get") rWs1), rMoneyPre, rAmtGroup 1, rWs1,
         .alt (rLitCI "cashback") (rSeq [rLitCI "cash", rWs1, rLitCI "back"])],
   rSeq [.opt (.seq (rLitCI "Earn") rWs1), rMoneyPre, rAmtGroup 1, rWs1,
         .alt (rLitCI "cashback") (rSeq [rLitCI "cash", rWs1, rLitCI "back"])]]

/-- `extract_amount`: try the flat patterns, then percentage-with-cap (whose
returned value is the cap, group 2), then cashback, each stage first match
wins; a `float` conversion failure is caught by the outer handler and yields
`0.0`, and no match at all yields `0.0`. -/
def extract_amount (d : String) : ℚ :=
  match firstCapture 1 flatAmountPats d.data with
  | some cap => (pyFloat (stripCommas cap)).getD 0
  | none =>
    match firstCapture 2 percentAmountPats d.data with
    | some cap => (pyFloat (stripCommas cap)).getD 0
    | none =>
      match firstCapture 1 cashbackAmountPats d.data with
      | some cap => (pyFloat (stripCommas cap)).getD 0
      | none => 0

/-- First stage of `extract_bank`: scan `bank_name_patterns` in dict order and
return the first bank key one of whose patterns occurs (lower-cased) in the
lower-cased description. -/
def bankPatternScan : List (String × List String) → String → Option String
  | [], _ => none
  | (bk, pats) :: rest, dl =>
    if pats.any (fun p => pyIn (pyLower p) dl) then some bk else bankPatternScan rest dl

/-- Second stage: direct containment of a `bank_scores` key, longest key first. -/
def bankKeyScan : List String → String → Option String
  | [], _ => none
  | k :: rest, dl => if pyIn (pyLower k) dl then some k else bankKeyScan rest dl

/-- Third stage: the `bank_variations` table (keys are already lower-case). -/
def bankVariationScan : List (String × String) → String → Option String
  | [], _ => none
  | (v, std) :: rest, dl => if pyIn v dl then some std else bankVariationScan rest dl

/-- `extract_bank` (amazon): three-stage lookup over the whole description. -/
def extract_bank (d : String) : Option String :=
  if d == "" then none
  else
    let dl := pyLower d
    match bankPatternScan amazonBankNamePatterns dl with
    | some b => some b
    | none =>
      match bankKeyScan amazonBankScoresKeysSorted dl with
      | some b => some b
      | none => bankVariationScan amazonBankVariations dl

/-- `extract_validity` patterns:
`valid\s+(?:till|until|up\s+to)\s+([^,\.;]+)`,
`offer\s+valid\s+(?:till|until|up\s+to)\s+([^,\.;]+)`,
`expires?\s+(?:on|by)?\s+([^,\.;]+)`,
`valid\s+(?:from|between).*?(?:to|till|until)\s+([^,\.;]+)`,
`(?:validity|valid)\s*:\s*([^,\.;]+)`. -/
def validityPats : List RE :=
  [rSeq [rLitCI "valid", rWs1,
         .alt (rLitCI "till") (.alt (rLitCI "until") (rSeq [rLitCI "up", rWs1, rLitCI "to"])),
         rWs1, .group 1 rNotPunct1],
   rSeq [rLitCI "offer", rWs1, rLitCI "valid", rWs1,
         .alt (rLitCI "till") (.alt (rLitCI "until") (rSeq [rLitCI "up", rWs1, rLitCI "to"])),
         rWs1, .group 1 rNotPunct1],
   rSeq [rLitCI "expire", .opt (rLitCI "s"), rWs1, .opt (.alt (rLitCI "on") (rLitCI "by")),
         rWs1, .group 1 rNotPunct1],
   rSeq [rLitCI "valid", rWs1, .alt (rLitCI "from") (rLitCI "between"), .starL rDot,
         .alt (rLitCI "to") (.alt (rLitCI "till") (rLitCI "until")), rWs1, .group 1 rNotPunct1],
   rSeq [.alt (rLitCI "validity") (rLitCI "valid"), rWsStar, rChar ':', rWsStar,
         .group 1 rNotPunct1]]

/-- `extract_validity`: first matching pattern's group 1, stripped. -/
def extract_validity (d : String) : Option String :=
  (firstCapture 1 validityPats d.data).map (fun c => pyStrip ⟨c⟩)

/-- `extract_min_spend` patterns (amazon), in source order:
`(?:Mini|Minimum)\s+purchase\s+value\s+(?:of\s+)?(?:INR\s+|₹\s*)([\d,]+\.?\d*)`,
`(?:Mini|Minimum)\s+(?:purchase|spend|transaction)\s+(?:of\s+|value\s+)?(?:INR\s+|₹\s*)([\d,]+\.?\d*)`,
`min(?:imum)?\s+(?:purchase|spend|transaction)\s+(?:of\s+|value\s+)?(?:INR\s+|₹\s*)([\d,]+\.?\d*)`,
`valid\s+on\s+(?:orders?|purchases?)\s+(?:of\s+|above\s+|worth\s+)(?:INR\s+|₹\s*)([\d,]+\.?\d*)`,
`applicable\s+on\s+(?:purchases?|orders?|transactions?)\s+(?:of\s+|above\s+|worth\s+)(?:INR\s+|₹\s*)([\d,]+\.?\d*)`,
`(?:on\s+)?(?:orders?|purchases?|spending)\s+(?:of\s+|above\s+|worth\s+)(?:INR\s+|₹\s*)([\d,]+\.?\d*)\s+(?:or\s+more|and\s+above)`,
`(?:minimum|min)\s+(?:spend|purchase|order)\s*:\s*(?:INR\s+|₹\s*)([\d,]+\.?\d*)`,
`(?:spend|purchase|order)\s+(?:minimum|min|at\s+least)\s+(?:INR\s+|₹\s*)([\d,]+\.?\d*)`. -/
def minSpendPats : List RE :=
  [rSeq [.alt (rLitCI "Mini") (rLitCI "Minimum"), rWs1, rLitCI "purchase", rWs1, rLitCI "value",
         rWs1, .opt (.seq (rLitCI "of") rWs1), rMoneyPre, rAmtGroup 1],
   rSeq [.alt (rLitCI "Mini") (rLitCI "Minimum"), rWs1,
         .alt (rLitCI "purchase") (.alt (rLitCI "spend") (rLitCI "transaction")), rWs1,
         .opt (.alt (.seq (rLitCI "of") rWs1) (.seq (rLitCI "value") rWs1)),
         rMoneyPre, rAmtGroup 1],
   rSeq [rLitCI "min", .opt (rLitCI "imum"), rWs1,
         .alt (rLitCI "purchase") (.alt (rLitCI "spend") (rLitCI "transaction")), rWs1,
         .opt (.alt (.seq (rLitCI "of") rWs1) (.seq (rLitCI "value") rWs1)),
         rMoneyPre, rAmtGroup 1],
   rSeq [rLitCI "valid", rWs1, rLitCI "on", rWs1,
         .alt (.seq (rLitCI "order") (.opt (rLitCI "s"))) (.seq (rLitCI "purchase") (.opt (rLitCI "s"))),
         rWs1,
         .alt (.seq (rLitCI "of") rWs1) (.alt (.seq (rLitCI "above") rWs1) (.seq (rLitCI "worth") rWs1)),
         rMoneyPre, rAmtGroup 1],
   rSeq [rLitCI "applicable", rWs1, rLitCI "on", rWs1,
         .alt (.seq (rLitCI "purchase") (.opt (rLitCI "s")))
           (.alt (.seq (rLitCI "order") (.opt (rLitCI "s"))) (.seq (rLitCI "transaction") (.opt (rLitCI "s")))),
         rWs1,
         .alt (.seq (rLitCI "of") rWs1) (.alt (.seq (rLitCI "above") rWs1) (.seq (rLitCI "worth") rWs1)),
         rMoneyPre, rAmtGroup 1],
   rSeq [.opt (.seq (rLitCI "on") rWs1),
         .alt (.seq (rLitCI "order") (.opt (rLitCI "s")))
           (.alt (.seq (rLitCI "purchase") (.opt (rLitCI "s"))) (rLitCI "spending")),
         rWs1,
         .alt (.seq (rLitCI "of") rWs1) (.alt (.seq (rLitCI "above") rWs1) (.seq (rLitCI "worth") rWs1)),
         rMoneyPre, rAmtGroup 1, rWs1,
         .alt (rSeq [rLitCI "or", rWs1, rLitCI "more"]) (rSeq [rLitCI "and", rWs1, rLitCI "above"])],
   rSeq [.alt (rLitCI "minimum") (rLitCI "min"), rWs1,
         .alt (rLitCI "spend") (.alt (rLitCI "purchase") (rLitCI "order")),
         rWsStar, rChar ':', rWsStar, rMoneyPre, rAmtGroup 1],
   rSeq [.alt (rLitCI "spend") (.alt (rLitCI "purchase") (rLitCI "order")), rWs1,
         .alt (rLitCI "minimum") (.alt (rLitCI "min") (rSeq [rLitCI "at", rWs1, rLitCI "least"])),
         rWs1, rMoneyPre, rAmtGroup 1]]

/-- One `extract_min_spend` pattern attempt, ℕ level: the match's group 1,
comma-stripped and decimal-parsed.  `none` both when the pattern does not
match and when `float` would raise `ValueError` — in either case the source
loop continues with the next pattern. -/
def minSpendTryParts (p : RE) (s : List Char) : Option (ℕ × ℕ × ℕ) :=
  (reSearch p s).bind (fun caps =>
    (getCap caps 1).bind (fun cap => pyFloatParts (stripCommas cap)))

def minSpendTry (p : RE) (s : List Char) : Option ℚ :=
  (minSpendTryParts p s).map partsToRat

/-- `extract_min_spend` (amazon): first pattern whose match's group 1 converts;
a `float` failure on one pattern continues with the next. -/
def minSpendLoop : List RE → List Char → Option ℚ
  | [], _ => none
  | p :: rest, s =>
    match minSpendTry p s with
    | some v => some v
    | none => minSpendLoop rest s

def extract_min_spend (d : String) : Option ℚ := minSpendLoop minSpendPats d.data

/-- Credit-card patterns of `extract_card_type` (run on the lower-cased
description, without `re.IGNORECASE`):
`\bcredit\s+card\b`, `\bcc\b`, `\bcredit\b.*\bcard\b`,
`\bmaster\s+card\b.*\bcredit\b`, `\bvisa\s+card\b.*\bcredit\b`. -/
def creditPats : List RE :=
  [rSeq [.wordB, rLit "credit", rWs1, rLit "card", .wordB],
   rSeq [.wordB, rLit "cc", .wordB],
   rSeq [.wordB, rLit "credit", .wordB, .star rDot, .wordB, rLit "card", .wordB],
   rSeq [.wordB, rLit "master", rWs1, rLit "card", .wordB, .star rDot, .wordB, rLit "credit", .wordB],
   rSeq [.wordB, rLit "visa", rWs1, rLit "card", .wordB, .star rDot, .wordB, rLit "credit", .wordB]]

/-- Debit-card patterns of `extract_card_type`:
`\bdebit\s+card\b`, `\bdc\b`, `\bdebit\b.*\bcard\b`,
`\bvisa\s+card\b.*\bdebit\b`, `\bmaster\s+card\b.*\bdebit\b`. -/
def debitPats : List RE :=
  [rSeq [.wordB, rLit "debit", rWs1, rLit "card", .wordB],
   rSeq [.wordB, rLit "dc", .wordB],
   rSeq [.wordB, rLit "debit", .wordB, .star rDot, .wordB, rLit "card", .wordB],
   rSeq [.wordB, rLit "visa", rWs1, rLit "card", .wordB, .star rDot, .wordB, rLit "debit", .wordB],
   rSeq [.wordB, rLit "master", rWs1, rLit "card", .wordB, .star rDot, .wordB, rLit "debit", .wordB]]

/-- `\bcard(s)?\b` -/
def cardWordPat : RE := rSeq [.wordB, rLit "card", .opt (.group 1 (rLit "s")), .wordB]

def ambiguousCardPhrases : List String :=
  ["credit & debit", "credit and debit", "credit/debit", "credit or debit",
   "both credit and debit", "all cards", "bank card", "card", "cards"]

/-- `extract_card_type` (amazon). -/
def extract_card_type (d : String) : Option String :=
  let dl := pyLower d
  let credit := creditPats.any (fun p => (reSearch p dl.data).isSome)
  let debit := debitPats.any (fun p => (reSearch p dl.data).isSome)
  if credit && debit then some "Credit/Debit Card"
  else if credit then some "Credit Card"
  else if debit then some "Debit Card"
  else if ambiguousCardPhrases.any (fun ph => pyIn ph dl) then some "Credit/Debit Card"
  else
    let has_card_word := (reSearch cardWordPat dl.data).isSome
    let has_bank_offer_word := pyIn "bank offer" dl || (pyIn "bank" dl && pyIn "offer" dl)
    let mentions_provider := amazonCardProviders.any (fun p => pyIn (pyLower p) dl)
    if has_card_word && (has_bank_offer_word || mentions_provider) then some "Credit/Debit Card"
    else none

/-- `extract_card_provider`: per-provider loop with the `Mastercard`/`RuPay`
special cases checked inside the same iteration. -/
def providerLoop : List String → String → Option String
  | [], _ => none
  | p :: rest, dl =>
    if pyIn (pyLower p) dl then some p
    else if p == "Mastercard" && pyIn "master" dl then some "Mastercard"
    else if p == "RuPay" && pyIn "rupay" dl then some "RuPay"
    else providerLoop rest dl

def extract_card_provider (d : String) : Option String :=
  providerLoop amazonCardProviders (pyLower d)

/-- `determine_offer_type` (amazon): keyword precedence on the card title,
falling back to bank-related keywords in the description. -/
def determine_offer_type (card_title d : String) : String :=
  let ctl := pyLower card_title
  let dl := pyLower d
  if ["bank offer", "instant discount", "card offer"].any (fun k => pyIn k ctl) then "Bank Offer"
  else if ["no cost emi", "no-cost emi", "emi"].any (fun k => pyIn k ctl) then "No Cost EMI"
  else if ["cashback", "cash back"].any (fun k => pyIn k ctl) then "Cashback"
  else if ["partner offer", "partner"].any (fun k => pyIn k ctl) then "Partner Offers"
  else if ["bank", "credit card", "debit card"].any (fun k => pyIn k dl) then "Bank Offer"
  else if card_title != "" then card_title
  else "Other Offer"

/-- The `'both'`-style card-type aliases replaced by `"Credit/Debit Card"`. -/
def bothCardAliases : List String :=
  ["both", "credit & debit", "credit and debit", "credit/debit", "credit or debit"]

/-- `extract_card_type` followed by the ambiguous-alias normalisation
performed in `parse_offer` (`if card_type and card_type.strip().lower() in
{...}: card_type = "Credit/Debit Card"`). -/
def normalized_card_type (d : String) : Option String :=
  match extract_card_type d with
  | some ct =>
    if bothCardAliases.contains (pyLower (pyStrip ct)) then some "Credit/Debit Card" else some ct
  | none => none

/-- `parse_offer` (amazon).  `g` is the Gemini oracle standing for
`analyze_description_with_gemini(description, field_type)` — a network call
whose response is an input of the embedding; the code consults it only when
the local `extract_bank` / `extract_card_type` found nothing and the
description is non-empty, and keeps the old value when the response is falsy. -/
def parse_offer (g : String → String → Option String) (o : RawOffer) : Offer :=
  let card_title := pyStrip o.card_type
  let description := pyStrip o.offer_description
  let offer_type := determine_offer_type card_title description
  let normalized_card_title := pyLower card_title
  let title :=
    if card_title == "" || normalized_card_title == "summary" then
      (if offer_type != "" then offer_type else "Offer")
    else card_title
  let amount := extract_amount description
  let bank0 := extract_bank description
  let validity := extract_validity description
  let min_spend := extract_min_spend description
  let card_type1 := normalized_card_type description
  let card_provider := extract_card_provider description
  let bank :=
    if bank0 == none && description != "" then
      match g description "bank" with
      | some b => if b != "" then some b else bank0
      | none => bank0
    else bank0
  let card_type :=
    if card_type1 == none && description != "" then
      match g description "card_type" with
      | some c => if c != "" then some c else card_type1
      | none => card_type1
    else card_type1
  let is_instant := pyIn "instant" (pyLower description) || !(pyIn "cashback" (pyLower description))
  { title := title, description := description, amount := amount, type := offer_type,
    bank := bank, validity := validity, min_spend := min_spend, is_instant := is_instant,
    card_type := card_type, card_provider := card_provider }

/-- The running score of `calculate_offer_score` just before the instant-bonus
step: base 80, plus the capped discount bonus, plus the minimum-spend
adjustment (the `offer.min_spend and …` truthiness test makes `0.0` falsy,
hence the `m ≠ 0` conjunct). -/
def scoreBeforeInstant (o : Offer) (product_price : ℚ) : ℚ :=
  let base1 :=
    if product_price > 0 ∧ o.amount > 0 then
      80 + min (o.amount / product_price * 100 * 2) 50
    else 80
  match o.min_spend with
  | some m =>
    if m ≠ 0 ∧ m > product_price then
      let pen := (m - product_price) / product_price * 100
      if pen > 50 then 15 else max (base1 - pen * (1 / 2)) 20
    else if m ≤ product_price then
      let ratio := if product_price > 0 then m / product_price else 0
      if ratio ≤ 9 / 10 then base1 + (1 - ratio) * 10 else base1
    else base1
  | none => base1 + 20

/-- `calculate_offer_score` (amazon): Bank Offers only; the final score is the
clamp of the accumulated base score (+5 when instant) to `[0, 100]`. -/
def calculate_offer_score (o : Offer) (product_price : ℚ) : ℚ :=
  if o.type ≠ "Bank Offer" then 0
  else
    let base2 := scoreBeforeInstant o product_price
    let base3 := if o.is_instant then base2 + 5 else base2
    max 0 (min 100 base3)

/-- The applicability / net-effective-price computation shared by both record
builders of `rank_offers` (`if offer.min_spend and product_price <
offer.min_spend`). -/
def applicability (min_spend : Option ℚ) (amount product_price : ℚ) : ℚ × Bool :=
  match min_spend with
  | some m =>
    if m ≠ 0 ∧ product_price < m then (product_price, false)
    else (max (product_price - amount) 0, true)
  | none => (max (product_price - amount) 0, true)

/-- The scored record that `rank_offers` builds for one Bank Offer. -/
def mkBankRecord (o : Offer) (p : ℚ) : RankedOffer :=
  let np := applicability o.min_spend o.amount p
  { title := o.title, description := o.description, amount := o.amount, bank := o.bank,
    validity := o.validity, min_spend := o.min_spend,
    score := some (calculate_offer_score o p), is_instant := o.is_instant,
    net_effective_price := np.1, is_applicable := np.2, offer_type := "Bank Offer",
    card_type := o.card_type, card_provider := o.card_provider, rank := none }

/-- The unscored record that `rank_offers` builds for a non-Bank offer
(`score`/`rank` are `None`). -/
def mkOtherRecord (o : Offer) (p : ℚ) : RankedOffer :=
  let np := applicability o.min_spend o.amount p
  { title := o.title, description := o.description, amount := o.amount, bank := o.bank,
    validity := o.validity, min_spend := o.min_spend,
    score := none, is_instant := o.is_instant,
    net_effective_price := np.1, is_applicable := np.2, offer_type := o.type,
    card_type := o.card_type, card_provider := o.card_provider, rank := none }

/-- `rank_offers` (amazon): parse, split by type, score the Bank Offers, sort
them by score descending (stable) and assign 1-based ranks, then append the
other offers unranked. -/
def rank_offers (g : String → String → Option String) (offers_data : List RawOffer)
    (product_price : ℚ) : List RankedOffer :=
  let parsed := offers_data.map (parse_offer g)
  let bank_offers := parsed.filter (fun o => o.type == "Bank Offer")
  let other_offers := parsed.filter (fun o => o.type != "Bank Offer")
  let scored := bank_offers.map (fun o => mkBankRecord o product_price)
  assignRanks (stableSortDesc (fun r => r.score.getD 0) scored) 1
    ++ other_offers.map (fun o => mkOtherRecord o product_price)

end OfferAnalyzer

/-! ## Flipkart `FlipkartOfferAnalyzer` (enhanced_flipkart_scraper_comprehensive.py) -/

namespace FlipkartOfferAnalyzer

/-- Flat discount patterns of the Flipkart `extract_amount` (amazon's five plus
`Rs\.?\s*([\d,]+\.?\d*)` and `INR\s*([\d,]+\.?\d*)`). -/
def flatAmountPats : List RE :=
  [rSeq [.opt (.seq (rLitCI "Additional") rWs1), rLitCI "Flat", rWs1, rMoneyPre, rAmtGroup 1],
   rSeq [.opt (.seq (rLitCI "Additional") rWs1), rMoneyPre, rAmtGroup 1, rWs1,
         .opt (.seq (rLitCI "Instant") rWs1), rLitCI "Discount"],
   rSeq [.opt (.seq (rLitCI "Get") rWs1), rMoneyPre, rAmtGroup 1, rWs1,
         .alt (rLitCI "off") (rLitCI "discount")],
   rSeq [.opt (.seq (rLitCI "Save") rWs1), rMoneyPre, rAmtGroup 1],
   rSeq [rLitCI "₹", rWsStar, rAmtGroup 1],
   rSeq [rLitCI "Rs", .opt (rChar '.'), rWsStar, rAmtGroup 1],
   rSeq [rLitCI "INR", rWsStar, rAmtGroup 1]]

/-- Percentage-with-cap patterns of the Flipkart `extract_amount`:
`([\d.]+)%\s+(?:Instant\s+)?Discount\s+up\s+to\s+(?:INR\s+|₹\s*)([\d,]+\.?\d*)`,
`Up\s+to\s+([\d.]+)%\s+(?:off|discount).*?(?:max|maximum|up\s+to)\s+(?:INR\s+|₹\s*)([\d,]+\.?\d*)`. -/
def percentAmountPats : List RE :=
  [rSeq [rPctGroup 1, rLitCI "%", rWs1, .opt (.seq (rLitCI "Instant") rWs1), rLitCI "Discount",
         rWs1, rLitCI "up", rWs1, rLitCI "to", rWs1, rMoneyPre, rAmtGroup 2],
   rSeq [rLitCI "Up", rWs1, rLitCI "to", rWs1, rPctGroup 1, rLitCI "%", rWs1,
         .alt (rLitCI "off") (rLitCI "discount"), .starL rDot,
         .alt (rLitCI "max") (.alt (rLitCI "maximum") (rSeq [rLitCI "up", rWs1, rLitCI "to"])),
         rWs1, rMoneyPre, rAmtGroup 2]]

/-- Flipkart `extract_amount`. -/
def extract_amount (d : String) : ℚ :=
  match firstCapture 1 flatAmountPats d.data with
  | some cap => (pyFloat (stripCommas cap)).getD 0
  | none =>
    match firstCapture 2 percentAmountPats d.data with
    | some cap => (pyFloat (stripCommas cap)).getD 0
    | none => 0

/-- `bank_key if bank_key.endswith("Bank") else f"{bank_key} Bank"`. -/
def ensureBankSuffix (b : String) : String :=
  if b.endsWith "Bank" then b else b ++ " Bank"

/-- First stage of the Flipkart `extract_bank`: one entry per bank whose
pattern list has a hit, in dict order (the inner `break` makes at most one hit
per bank count). -/
def foundBanksStage1 : List (String × List String) → String → List String
  | [], _ => []
  | (bk, pats) :: rest, dl =>
    if pats.any (fun p => pyIn (pyLower p) dl) then
      ensureBankSuffix bk :: foundBanksStage1 rest dl
    else foundBanksStage1 rest dl

/-- Second stage: append every `bank_scores` key contained in the description
(longest first), suffix-normalised, skipping duplicates. -/
def foundBanksStage2 : List String → String → List String → List String
  | [], _, found => found
  | k :: rest, dl, found =>
    if pyIn (pyLower k) dl then
      let b := ensureBankSuffix k
      if found.contains b then foundBanksStage2 rest dl found
      else foundBanksStage2 rest dl (found ++ [b])
    else foundBanksStage2 rest dl found

/-- Flipkart `extract_bank`: comma-joined list when several banks are found. -/
def extract_bank (d : String) : Option String :=
  if d == "" then none
  else
    let dl := pyLower d
    let found := foundBanksStage2 flipkartBankScoresKeysSorted dl
      (foundBanksStage1 flipkartBankNamePatterns dl)
    match found with
    | [] => none
    | [b] => some b
    | _ => some (String.intercalate ", " found)

def creditCardPhrases : List String :=
  ["credit card", "credit cards", "credit", "creditcard", "credit-card",
   "credit card offer", "credit card discount", "credit card cashback",
   "credit card payment", "credit card transaction"]

def debitCardPhrases : List String :=
  ["debit card", "debit cards", "debit", "debitcard", "debit-card",
   "debit card offer", "debit card discount", "debit card cashback",
   "debit card payment", "debit card transaction"]

def genericCardPhrases : List String :=
  ["all cards", "bank card", "bank cards", "card", "cards",
   "any card", "any cards", "card offer", "card discount",
   "card payment", "card transaction", "plastic money"]

/-- Flipkart `extract_card_type` (pure substring tests). -/
def extract_card_type (d : String) : Option String :=
  if d == "" then none
  else
    let dl := pyLower d
    let has_credit := creditCardPhrases.any (fun p => pyIn p dl)
    let has_debit := debitCardPhrases.any (fun p => pyIn p dl)
    let has_generic := genericCardPhrases.any (fun p => pyIn p dl)
    if has_credit && has_debit then some "Credit/Debit Card"
    else if has_credit then some "Credit Card"
    else if has_debit then some "Debit Card"
    else if has_generic then some "Credit/Debit Card"
    else none

/-- Flipkart `extract_min_spend` patterns:
`(?:Mini|Minimum)\s+purchase\s+value\s+(?:of\s+)?(?:INR\s+|₹\s*|Rs\.?\s*)([\d,]+\.?\d*)`,
`(?:Mini|Minimum)\s+(?:purchase|spend|transaction)\s+(?:of\s+|value\s+)?(?:INR\s+|₹\s*|Rs\.?\s*)([\d,]+\.?\d*)`,
`valid\s+on\s+(?:orders?|purchases?)\s+(?:of\s+|above\s+|worth\s+)(?:INR\s+|₹\s*|Rs\.?\s*)([\d,]+\.?\d*)`. -/
def minSpendPats : List RE :=
  [rSeq [.alt (rLitCI "Mini") (rLitCI "Minimum"), rWs1, rLitCI "purchase", rWs1, rLitCI "value",
         rWs1, .opt (.seq (rLitCI "of") rWs1), rMoneyPreRs, rAmtGroup 1],
   rSeq [.alt (rLitCI "Mini") (rLitCI "Minimum"), rWs1,
         .alt (rLitCI "purchase") (.alt (rLitCI "spend") (rLitCI "transaction")), rWs1,
         .opt (.alt (.seq (rLitCI "of") rWs1) (.seq (rLitCI "value") rWs1)),
         rMoneyPreRs, rAmtGroup 1],
   rSeq [rLitCI "valid", rWs1, rLitCI "on", rWs1,
         .alt (.seq (rLitCI "order") (.opt (rLitCI "s"))) (.seq (rLitCI "purchase") (.opt (rLitCI "s"))),
         rWs1,
         .alt (.seq (rLitCI "of") rWs1) (.alt (.seq (rLitCI "above") rWs1) (.seq (rLitCI "worth") rWs1)),
         rMoneyPreRs, rAmtGroup 1]]

def extract_min_spend (d : String) : Option ℚ :=
  OfferAnalyzer.minSpendLoop minSpendPats d.data

/-- Flipkart `parse_offer`: no Gemini involvement; the offer type is decided by
keyword precedence on the description, Bank Offer first. -/
def parse_offer (o : FlipkartRawOffer) : Offer :=
  let description := pyStrip o.description
  let title := pyStrip (o.card_type.getD "Flipkart Offer")
  let amount := extract_amount description
  let bank := extract_bank description
  let min_spend := extract_min_spend description
  let card_type := extract_card_type description
  let dl := pyLower description
  let offer_type :=
    if flipkartBankKeywords.any (fun k => pyIn k dl) then "Bank Offer"
    else if pyIn "cashback" dl then "Cashback"
    else if ["emi", "no cost", "no-cost", "installment"].any (fun k => pyIn k dl) then "No Cost EMI"
    else if ["partner", "affiliate", "third party", "external"].any (fun k => pyIn k dl) then
      "Partner Offer"
    else if pyIn "exchange" dl then "Exchange Offer"
    else "Flipkart Offer"
  { title := title, description := description, amount := amount, type := offer_type,
    bank := bank, validity := none, min_spend := min_spend,
    is_instant := pyIn "instant" dl, card_type := card_type, card_provider := none }

/-- Flipkart `calculate_offer_score`: same base-80 / discount-bonus /
minimum-spend steps as the amazon scorer, but then a bank-reputation
adjustment (`(bank_scores.get(bank, 70) - 70) / 2`, or `-5` when no bank) and
NO instant bonus, before the `[0, 100]` clamp. -/
def calculate_offer_score (o : Offer) (product_price : ℚ) : ℚ :=
  if o.type ≠ "Bank Offer" then 0
  else
    let base2 := OfferAnalyzer.scoreBeforeInstant o product_price
    let base3 :=
      match o.bank with
      | some bk =>
        if bk ≠ "" then
          base2 + (((lookupAssoc flipkartBankScores bk).getD 70 : ℚ) - 70) / 2
        else base2 - 5
      | none => base2 - 5
    max 0 (min 100 base3)

/-- Flipkart Bank-Offer record (`validity`/`card_provider` are emitted as
`None` by this analyzer). -/
def mkBankRecord (o : Offer) (p : ℚ) : RankedOffer :=
  let np := OfferAnalyzer.applicability o.min_spend o.amount p
  { title := o.title, description := o.description, amount := o.amount, bank := o.bank,
    validity := none, min_spend := o.min_spend,
    score := some (calculate_offer_score o p), is_instant := o.is_instant,
    net_effective_price := np.1, is_applicable := np.2, offer_type := "Bank Offer",
    card_type := o.card_type, card_provider := none, rank := none }

/-- Flipkart non-bank record: `score` is `None` when some Bank Offer exists,
and the offer's amount otherwise (`None if bank_offers else offer.amount`). -/
def mkOtherRecord (noBank : Bool) (o : Offer) (p : ℚ) : RankedOffer :=
  let np := OfferAnalyzer.applicability o.min_spend o.amount p
  { title := o.title, description := o.description, amount := o.amount, bank := o.bank,
    validity := none, min_spend := o.min_spend,
    score := if noBank then some o.amount else none, is_instant := o.is_instant,
    net_effective_price := np.1, is_applicable := np.2, offer_type := o.type,
    card_type := o.card_type, card_provider := none, rank := none }

/-- Flipkart `rank_offers`: Bank Offers are scored, sorted and ranked as in the
amazon analyzer; the other offers are appended unranked — except that when no
Bank Offer is present they are sorted by `(score or 0)` (= amount) descending
and given 1-based ranks themselves. -/
def rank_offers (offers_data : List FlipkartRawOffer) (product_price : ℚ) :
    List RankedOffer :=
  let parsed := offers_data.map parse_offer
  let bank_offers := parsed.filter (fun o => o.type == "Bank Offer")
  let other_offers := parsed.filter (fun o => o.type != "Bank Offer")
  let rankedBank :=
    assignRanks (stableSortDesc (fun r => r.score.getD 0)
      (bank_offers.map (fun o => mkBankRecord o product_price))) 1
  let others := other_offers.map (fun o => mkOtherRecord bank_offers.isEmpty o product_price)
  let rankedOthers :=
    if bank_offers.isEmpty then
      assignRanks (stableSortDesc (fun r => r.score.getD 0) others) 1
    else others
  rankedBank ++ rankedOthers

end FlipkartOfferAnalyzer

/-- JioMart `parse_offer`'s instant flag (enhanced_jiomart_scraper_comprehensive.py
line 779), identical to the amazon one:
`'instant' in description.lower() or 'cashback' not in description.lower()`. -/
def jiomartIsInstant (description : String) : Bool :=
  pyIn "instant" (pyLower description) || !(pyIn "cashback" (pyLower description))

/-! ## Flipkart stock determination (extract_flipkart_price_and_stock, lines 639-658) -/

/-- The `in_stock` field computed by `extract_flipkart_price_and_stock` from
the two page signals: `False` when the sold-out marker was found, `True` when
offers were found and no marker, `None` (undetermined) otherwise. -/
def flipkartInStockField (sold_out_found offers_found : Bool) : Option Bool :=
  if sold_out_found then some false
  else if offers_found && !sold_out_found then some true
  else none

/-- The spec's tri-state stock outcome. -/
inductive StockState where
  | InStock
  | OutOfStock
  | Unknown
deriving DecidableEq

/-- How the tri-state maps onto the repository's `in_stock` field
(`True` / `False` / `None`). -/
def StockState.toInStockField : StockState → Option Bool
  | .InStock => some true
  | .OutOfStock => some false
  | .Unknown => none

/-- The stock outcome exactly as the spec words it: the sold-out marker forces
OutOfStock with strict priority; otherwise offers present means InStock;
otherwise Unknown. -/
def stockStateSpec (marker offers_extracted : Bool) : StockState :=
  if marker then .OutOfStock
  else if offers_extracted then .InStock
  else .Unknown

/-! ## The cached-URL skip of the main Amazon worker loop
(process_comprehensive_amazon_store_links, lines 2454-2467 and 2637-2641)

The per-URL browser extraction (navigation, price/stock scraping, offer
scraping and ranking — lines 2492-2635) is abstracted as an oracle
`E : String → StoreLinkFields → StoreLinkFields` giving the store-link fields
after a fresh scrape of the URL; one invocation of `E` is one "Extractor
invocation" and is counted.  The cached snapshot holds exactly the six keys of
`extract_store_link_snapshot`. -/

/-- The six optional store-link fields that are cached and restored
(`'price', 'in_stock', 'product_name_via_url', 'platform_url',
'with_exchange_price', 'ranked_offers'`); `none` models an absent key. -/
structure StoreLinkFields where
  price : Option String := none
  in_stock : Option Bool := none
  product_name_via_url : Option String := none
  platform_url : Option String := none
  with_exchange_price : Option String := none
  ranked_offers : Option (List RankedOffer) := none
deriving DecidableEq

/-- `apply_cached_result_to_store_link`: every key present in the cached
snapshot overwrites the store link's value; absent keys leave it unchanged. -/
def apply_cached_result_to_store_link (link cached : StoreLinkFields) : StoreLinkFields :=
  { price := cached.price.orElse (fun _ => link.price),
    in_stock := cached.in_stock.orElse (fun _ => link.in_stock),
    product_name_via_url := cached.product_name_via_url.orElse (fun _ => link.product_name_via_url),
    platform_url := cached.platform_url.orElse (fun _ => link.platform_url),
    with_exchange_price := cached.with_exchange_price.orElse (fun _ => link.with_exchange_price),
    ranked_offers := cached.ranked_offers.orElse (fun _ => link.ranked_offers) }

/-- `extract_store_link_snapshot`: the snapshot is the present subset of those
same six keys — on this field record, the identity. -/
def extract_store_link_snapshot (link : StoreLinkFields) : StoreLinkFields := link

/-- Mutable state of the processing loop: visited-URL log, URL-result cache,
and the number of Extractor invocations made so far. -/
structure ScanState where
  visited : List String
  cache : List (String × StoreLinkFields)
  extractorCalls : ℕ
deriving DecidableEq

/-- One iteration of the loop body for a store link with a non-empty URL:
if the URL is in the visited log or the cache, short-circuit — apply the
cached snapshot if one exists, record the URL as visited, and make no
Extractor invocation; otherwise run the Extractor, then append the URL to the
visited log and store its snapshot in the cache. -/
def process_store_link (E : String → StoreLinkFields → StoreLinkFields)
    (st : ScanState) (link : StoreLinkFields) (url : String) :
    ScanState × StoreLinkFields :=
  if st.visited.contains url || (lookupAssoc st.cache url).isSome then
    let link' :=
      match lookupAssoc st.cache url with
      | some cached => apply_cached_result_to_store_link link cached
      | none => link
    ({ st with visited := url :: st.visited }, link')
  else
    let link' := E url link
    ({ visited := url :: st.visited,
       cache := (url, extract_store_link_snapshot link') :: st.cache,
       extractorCalls := st.extractorCalls + 1 }, link')

/-! ## Persistent-error escalation of the Amazon worker loop
(detect_error_type, lines 411-431; the escalation check, lines 2685-2702) -/

/-- The classification record returned by `detect_error_type`. -/
structure DetectedError where
  is_chrome_driver_error : Bool
  is_http_connection_error : Bool
  is_file_descriptor_error : Bool
  is_session_error : Bool
  is_max_retry_error : Bool
  requires_driver_restart : Bool
  requires_resource_cleanup : Bool
deriving DecidableEq

/-- `detect_error_type`: multi-label keyword classification of the lower-cased
error message against `ERROR_DETECTION_CONFIG`. -/
def detect_error_type (error_message : String) : DetectedError :=
  let es := pyLower error_message
  { is_chrome_driver_error := chromeDriverErrorKeywords.any (fun k => pyIn k es),
    is_http_connection_error := httpConnectionErrorKeywords.any (fun k => pyIn k es),
    is_file_descriptor_error := fileDescriptorErrorKeywords.any (fun k => pyIn k es),
    is_session_error := sessionErrorKeywords.any (fun k => pyIn k es),
    is_max_retry_error := maxRetryErrorKeywords.any (fun k => pyIn k es),
    requires_driver_restart :=
      (chromeDriverErrorKeywords ++ sessionErrorKeywords).any (fun k => pyIn k es),
    requires_resource_cleanup := fileDescriptorErrorKeywords.any (fun k => pyIn k es) }

/-- The condition under which the loop increments its persistent-error counter
(lines 2692-2694); any other failure RESETS the counter to zero. -/
def isCriticalPersistentError (e : DetectedError) : Bool :=
  e.is_chrome_driver_error || e.is_http_connection_error
    || e.is_file_descriptor_error || e.is_session_error

/-- One failed-task update of `_persistent_error_count`. -/
def persistent_error_step (cnt : ℕ) (e : DetectedError) : ℕ :=
  if isCriticalPersistentError e then cnt + 1 else 0

/-- Run a sequence of task failures through the counter logic.  The `Bool`
records whether the loop escalated — reached `_persistent_error_count >= 5`,
at which point the code calls `save_progress_and_pause(output_file, data,
url_cache)` (writing the working dataset to a progress file and persisting the
cache — file I/O outside the embedding) and `return`s, halting the run. -/
def run_error_sequence (cnt : ℕ) : List DetectedError → ℕ × Bool
  | [] => (cnt, false)
  | e :: es =>
    let c := persistent_error_step cnt e
    if 5 ≤ c then (c, true) else run_error_sequence c es

/-! ## URL mapper merge (url_mapper.py, merge_platform_data lines 242-298) -/

/-- A store link inside a platform shard entry, with the two keys the mapper
reads (`store_link.get('name', '')`, `store_link.get('url', '')`). -/
structure PStoreLink where
  name : String := ""
  url : String := ""
deriving DecidableEq

/-- An item owning store links (`item['store_links']`; a missing or non-list
value, which the code skips, is modelled as `[]`). -/
structure PItem where
  store_links : List PStoreLink := []
deriving DecidableEq

/-- `entry['scraped_data']` with its three searched locations (a missing
location, which the code skips, is modelled as `[]`). -/
structure PScrapedData where
  variants : List PItem := []
  all_matching_products : List PItem := []
  unmapped : List PItem := []
deriving DecidableEq

/-- One record of a platform shard output.  Besides `scraped_data` we track the
four "new keys" that `merge_platform_data` re-copies (a no-op on a `copy()` of
the entry); the remaining payload of the dict is irrelevant to the merge. -/
structure PEntry where
  scraped_data : Option PScrapedData := none
  product_name_via_url : Option String := none
  with_exchange_price : Option String := none
  in_stock : Option Bool := none
  platform_url : Option String := none
deriving DecidableEq

namespace URLMapper

/-- `find_platform_urls`: every store link, under
`scraped_data.{variants, all_matching_products, unmapped}` in that order,
whose name contains the platform identifier and whose URL is non-empty;
paired with the entry that contains it. -/
def find_platform_urls (data : List PEntry) (identifier : String) : List (PEntry × String) :=
  data.flatMap (fun entry =>
    match entry.scraped_data with
    | none => []
    | some sd =>
      (sd.variants ++ sd.all_matching_products ++ sd.unmapped).flatMap (fun item =>
        (item.store_links.filter (fun sl =>
          pyIn identifier (pyLower sl.name) && sl.url != "")).map (fun sl => (entry, sl.url))))

/-- `merge_platform_data`: for EVERY matching platform URL, append a copy of
the containing entry to `final_data` ("Create new entry in final_data for
every URL", lines 267-285); the re-copy of the four new keys from `entry` onto
`entry.copy()` is the identity, so the appended record is the entry itself.
No existing record of `final_data` is consulted or modified. -/
def merge_platform_data (identifier : String) (platform_data : List PEntry)
    (final_data : List PEntry) : List PEntry :=
  final_data ++ (find_platform_urls platform_data identifier).map (fun m => m.1)

end URLMapper

/-! ## Spec-side definitions (written from the claims' wording, for
refinement-style comparison with the source embeddings) -/

/-- The scoring formula exactly as claim C1 words it, for a Bank Offer with
discount amount `a`, optional minimum spend `m`, product price `p` and instant
flag: base 80; plus `min(a/p·100·2, 50)` when `p>0` and `a>0`; plus the
minimum-spend adjustment (for `m>p`: flat 15 when the penalty percentage
exceeds 50, else subtract half the penalty percentage floored at 20; +20 when
`m` is absent; `+(1-m/p)·10` when `m≤p` and `m/p≤0.9`); plus 5 when instant;
all clamped to `[0, 100]`. -/
def claimedAdjustedScore (a : ℚ) (m : Option ℚ) (p : ℚ) : ℚ :=
  let s1 : ℚ := 80 + (if p > 0 ∧ a > 0 then min (a / p * 100 * 2) 50 else 0)
  match m with
  | none => s1 + 20
  | some mv =>
    if mv > p then
      let pen := (mv - p) / p * 100
      if pen > 50 then 15 else max (s1 - pen * (1 / 2)) 20
    else if mv / p ≤ 9 / 10 then s1 + (1 - mv / p) * 10
    else s1

/-- The claim's raw (pre-clamp) score: the adjusted score plus 5 when instant
(the claim's scenario computes raw 125 here). -/
def claimedBankOfferScoreRaw (a : ℚ) (m : Option ℚ) (p : ℚ) (instant : Bool) : ℚ :=
  let s2 := claimedAdjustedScore a m p
  if instant then s2 + 5 else s2

def claimedBankOfferScore (a : ℚ) (m : Option ℚ) (p : ℚ) (instant : Bool) : ℚ :=
  max 0 (min 100 (claimedBankOfferScoreRaw a m p instant))

/-- Claim C2's applicability rule: with `m` present and `p < m`, not applicable
and net price `p`; otherwise applicable and net price `max (p - a) 0`. -/
def claimedApplicability (m : Option ℚ) (a p : ℚ) : ℚ × Bool :=
  match m with
  | some mv => if p < mv then (p, false) else (max (p - a) 0, true)
  | none => (max (p - a) 0, true)

/-! ## Concrete instances used by the witnesses and counterexamples -/

/-- Gemini oracle that never extracts anything (e.g. all API keys fail). -/
def geminiNone : String → String → Option String := fun _ _ => none

/-- Gemini oracle whose response text is `HDFC Bank` for every query. -/
def geminiHDFC : String → String → Option String := fun _ _ => some "HDFC Bank"

/-- Claim C1's scenario offer: amount 2000, no minimum spend, instant. -/
def c1ScenarioOffer : Offer :=
  { title := "Bank Offer", description := "", amount := 2000, type := "Bank Offer",
    bank := none, validity := none, min_spend := none, is_instant := true,
    card_type := none, card_provider := none }

/-- A parsed Bank Offer with no extracted amount and no bank, instant — the
Flipkart scorer gives it 80+20−5 = 95 while the claim's formula gives
min(80+20+5, 100) = 100. -/
def c1FlipOffer : Offer :=
  { title := "Bank Offer", description := "", amount := 0, type := "Bank Offer",
    bank := none, validity := none, min_spend := none, is_instant := true,
    card_type := none, card_provider := none }

/-- Claim C2's scenario description: parses to amount 1000, minimum spend 6000,
HDFC Bank, Credit Card, instant. -/
def dC2 : String :=
  "Flat ₹1000 Instant Discount Minimum purchase value ₹6000 on HDFC Bank Credit Card"

def rawC2 : RawOffer := { card_type := "Bank Offer", offer_description := dC2 }

/-- What `parse_offer` produces for `rawC2` (established by `parse_offer_rawC2`). -/
def offC2 : Offer :=
  { title := "Bank Offer", description := dC2, amount := 1000, type := "Bank Offer",
    bank := some "HDFC Bank", validity := none, min_spend := some 6000, is_instant := true,
    card_type := some "Credit Card", card_provider := none }

/-- The single record `rank_offers` produces for `[rawC2]` at price 5000:
score clamped to 100, rank 1, NOT applicable, net price 5000. -/
def recC2 : RankedOffer :=
  { title := "Bank Offer", description := dC2, amount := 1000, bank := some "HDFC Bank",
    validity := none, min_spend := some 6000, score := some 100, is_instant := true,
    net_effective_price := 5000, is_applicable := false, offer_type := "Bank Offer",
    card_type := some "Credit Card", card_provider := none, rank := some 1 }

/-- A description on which every extractor returns its default: no amount, no
bank, no minimum spend, no card type, no validity — and length ≥ 10, so
`parse_offer` consults the Gemini oracle for the missing bank and card type. -/
def rawC5 : RawOffer := { card_type := "Bank Offer", offer_description := "wonderful mega deal" }

/-- Whitespace-only description: `parse_offer` strips it to `""` and never
consults the Gemini oracle. -/
def rawBlank : RawOffer := { card_type := "Bank Offer", offer_description := "   " }

/-- An amazon raw offer does not trigger a Gemini call exactly when its
stripped description is empty, or both the bank and the (normalised) card type
are found by the local extractors. -/
def geminiFree (raw : RawOffer) : Prop :=
  pyStrip raw.offer_description = ""
    ∨ (OfferAnalyzer.extract_bank (pyStrip raw.offer_description) ≠ none
        ∧ OfferAnalyzer.normalized_card_type (pyStrip raw.offer_description) ≠ none)

instance (raw : RawOffer) : Decidable (geminiFree raw) := by
  unfold geminiFree
  infer_instance

/-- A Flipkart raw offer that parses to a non-Bank "Flipkart Offer" (its
description contains no bank/cashback/EMI/partner/exchange keyword). -/
def rawNB : FlipkartRawOffer :=
  { card_type := some "Special Offer", description := "wonderful mega deal" }

/-- A Flipkart raw offer that parses to a Bank Offer (keyword `hdfc`). -/
def rawFB : FlipkartRawOffer :=
  { card_type := some "Bank Offer", description := "hdfc card offer" }

/-- An Extractor oracle for the C6 witness: returns the link unchanged. -/
def extractorKeep : String → StoreLinkFields → StoreLinkFields := fun _ l => l

/-- The empty scan state (fresh run: nothing visited, empty cache). -/
def scanState0 : ScanState := { visited := [], cache := [], extractorCalls := 0 }

/-- A shard entry with one store link matching the `amazon.in` identifier. -/
def entryC7 : PEntry :=
  { scraped_data := some
      { variants := [{ store_links := [{ name := "Amazon.in", url := "https://amazon.in/dp/X" }] }],
        all_matching_products := [], unmapped := [] },
    product_name_via_url := some "Phone X", with_exchange_price := none,
    in_stock := some true, platform_url := none }

/-- A cached snapshot for the C6 witness. -/
def snapC6 : StoreLinkFields := { price := some "₹999", in_stock := some true }

/-- A scan state whose cache already holds URL `u` (C6 witness). -/
def stC6 : ScanState := { visited := [], cache := [("u", snapC6)], extractorCalls := 3 }

/-- A task-failure message none of whose `ERROR_DETECTION_CONFIG` keywords
apply: a fully unclassified failure. -/
def unclassifiedMsg : String := "unexpected failure"

/-- A chrome-driver failure message (`chrome not reachable` keyword): one of
the four categories that increment the persistent-error counter. -/
def criticalMsg : String := "chrome not reachable"

/-! # Theorems -/

/-! ## Shared structural lemmas -/

theorem mem_stableInsertDesc (key : α → ℚ) (x a : α) (l : List α) :
    a ∈ stableInsertDesc key x l ↔ a = x ∨ a ∈ l := by
  induction l with
  | nil => simp [stableInsertDesc]
  | cons y ys ih =>
    by_cases h : key y > key x
    · simp only [stableInsertDesc, if_pos h, List.mem_cons, ih]
      tauto
    · simp only [stableInsertDesc, if_neg h, List.mem_cons]

theorem mem_stableSortDesc (key : α → ℚ) (a : α) (l : List α) :
    a ∈ stableSortDesc key l ↔ a ∈ l := by
  induction l with
  | nil => simp [stableSortDesc]
  | cons y ys ih =>
    simp only [stableSortDesc, mem_stableInsertDesc, List.mem_cons, ih]

theorem mem_assignRanks {l : List RankedOffer} {i : ℕ} {r : RankedOffer}
    (h : r ∈ assignRanks l i) : ∃ r' ∈ l, ∃ j : ℕ, r = { r' with rank := some j } := by
  induction l generalizing i with
  | nil => simp [assignRanks] at h
  | cons x xs ih =>
    simp only [assignRanks, List.mem_cons] at h
    rcases h with h | h
    · exact ⟨x, List.mem_cons_self x xs, i, h⟩
    · obtain ⟨r', hr', j, hj⟩ := ih h
      exact ⟨r', List.mem_cons_of_mem x hr', j, hj⟩

theorem applicability_eq_claimed (m : Option ℚ) (a p : ℚ) (hp : 0 ≤ p) :
    OfferAnalyzer.applicability m a p = claimedApplicability m a p := by
  unfold OfferAnalyzer.applicability claimedApplicability
  cases m with
  | none => rfl
  | some mv =>
    dsimp only
    by_cases hlt : p < mv
    · have hm0 : mv ≠ 0 := by
        intro h0
        rw [h0] at hlt
        exact absurd hlt (not_lt.mpr hp)
      rw [if_pos (⟨hm0, hlt⟩ : mv ≠ 0 ∧ p < mv), if_pos hlt]
    · have h1 : ¬ (mv ≠ 0 ∧ p < mv) := fun hc => hlt hc.2
      rw [if_neg h1, if_neg hlt]

theorem scoreBeforeInstant_eq_claimedAdjusted (o : Offer) (p : ℚ) (hp : 0 < p) :
    OfferAnalyzer.scoreBeforeInstant o p = claimedAdjustedScore o.amount o.min_spend p := by
  unfold OfferAnalyzer.scoreBeforeInstant claimedAdjustedScore
  have hbase : (if p > 0 ∧ o.amount > 0 then (80 : ℚ) + min (o.amount / p * 100 * 2) 50 else 80)
      = 80 + (if p > 0 ∧ o.amount > 0 then min (o.amount / p * 100 * 2) 50 else 0) := by
    split_ifs <;> ring
  cases o.min_spend with
  | none =>
    dsimp only
    rw [hbase]
  | some m =>
    dsimp only
    rw [hbase]
    by_cases hmp : m > p
    · have hm0 : m ≠ 0 := ne_of_gt (lt_trans hp hmp)
      rw [if_pos (⟨hm0, hmp⟩ : m ≠ 0 ∧ m > p), if_pos hmp]
    · have hle : m ≤ p := le_of_not_lt hmp
      have h1 : ¬ (m ≠ 0 ∧ m > p) := fun hc => hmp hc.2
      rw [if_neg h1, if_pos hle, if_neg hmp, if_pos hp]

theorem amazon_rank_record_shape {g : String → String → Option String} {offers : List RawOffer}
    {p : ℚ} {r : RankedOffer} (h : r ∈ OfferAnalyzer.rank_offers g offers p) :
    (r.net_effective_price, r.is_applicable) = OfferAnalyzer.applicability r.min_spend r.amount p
      ∧ (r.offer_type ≠ "Bank Offer" → r.score = none ∧ r.rank = none) := by
  unfold OfferAnalyzer.rank_offers at h
  rw [List.mem_append] at h
  rcases h with h | h
  · obtain ⟨r', hr', j, hj⟩ := mem_assignRanks h
    rw [mem_stableSortDesc] at hr'
    obtain ⟨o, ho, rfl⟩ := List.mem_map.mp hr'
    subst hj
    constructor
    · simp [OfferAnalyzer.mkBankRecord]
    · intro hne
      exact absurd rfl hne
  · obtain ⟨o, ho, rfl⟩ := List.mem_map.mp h
    constructor
    · simp [OfferAnalyzer.mkOtherRecord]
    · intro _
      exact ⟨rfl, rfl⟩

theorem flipkart_rank_nonbank_none {offers : List FlipkartRawOffer} {p : ℚ} {r : RankedOffer}
    (hbank : ∃ raw ∈ offers, (FlipkartOfferAnalyzer.parse_offer raw).type = "Bank Offer")
    (h : r ∈ FlipkartOfferAnalyzer.rank_offers offers p) :
    r.offer_type ≠ "Bank Offer" → r.score = none ∧ r.rank = none := by
  obtain ⟨raw, hraw, htype⟩ := hbank
  have hNE : ((offers.map FlipkartOfferAnalyzer.parse_offer).filter
      (fun o => o.type == "Bank Offer")).isEmpty = false := by
    have hmem : FlipkartOfferAnalyzer.parse_offer raw
        ∈ (offers.map FlipkartOfferAnalyzer.parse_offer).filter
          (fun o => o.type == "Bank Offer") :=
      List.mem_filter.mpr ⟨List.mem_map_of_mem _ hraw, by simp [htype]⟩
    rcases heq : (offers.map FlipkartOfferAnalyzer.parse_offer).filter
        (fun o => o.type == "Bank Offer") with _ | _
    · rw [heq] at hmem
      simp at hmem
    · rw [heq]
      rfl
  unfold FlipkartOfferAnalyzer.rank_offers at h
  dsimp only at h
  rw [hNE] at h
  simp only [Bool.false_eq_true, if_false] at h
  rw [List.mem_append] at h
  rcases h with h | h
  · obtain ⟨r', hr', j, hj⟩ := mem_assignRanks h
    rw [mem_stableSortDesc] at hr'
    obtain ⟨o, ho, rfl⟩ := List.mem_map.mp hr'
    subst hj
    intro hne
    exact absurd rfl hne
  · obtain ⟨o, ho, rfl⟩ := List.mem_map.mp h
    intro _
    exact ⟨rfl, rfl⟩

/-! ## Concrete evaluation of the C2 scenario -/

theorem extract_amount_dC2 : OfferAnalyzer.extract_amount dC2 = 1000 := by
  have h1 : firstCapture 1 OfferAnalyzer.flatAmountPats dC2.data = some "1000".data := by decide
  have h2 : pyFloatParts (stripCommas "1000".data) = some (1000, 0, 0) := by decide
  simp only [OfferAnalyzer.extract_amount, h1, pyFloat, h2, Option.map_some', Option.getD_some,
    partsToRat]
  norm_num

theorem extract_min_spend_dC2 : OfferAnalyzer.extract_min_spend dC2 = some 6000 := by
  have h1 : OfferAnalyzer.minSpendTryParts (rSeq [.alt (rLitCI "Mini") (rLitCI "Minimum"), rWs1,
      rLitCI "purchase", rWs1, rLitCI "value",
      rWs1, .opt (.seq (rLitCI "of") rWs1), rMoneyPre, rAmtGroup 1]) dC2.data
      = some (6000, 0, 0) := by decide
  simp only [OfferAnalyzer.extract_min_spend, OfferAnalyzer.minSpendPats,
    OfferAnalyzer.minSpendLoop, OfferAnalyzer.minSpendTry, h1, Option.map_some', partsToRat]
  norm_num

theorem parse_offer_rawC2 : OfferAnalyzer.parse_offer geminiNone rawC2 = offC2 := by
  have hd : pyStrip rawC2.offer_description = dC2 := by decide
  simp only [OfferAnalyzer.parse_offer, hd, extract_amount_dC2, extract_min_spend_dC2]
  simp only [offC2, Offer.mk.injEq]
  refine ⟨?_, ?_, ?_, ?_, ?_, ?_, ?_, ?_, ?_, ?_⟩ <;> trivial

theorem rank_offers_singleton_bank (g : String → String → Option String) (raw : RawOffer)
    (o : Offer) (p : ℚ) (h : OfferAnalyzer.parse_offer g raw = o) (ht : o.type = "Bank Offer") :
    OfferAnalyzer.rank_offers g [raw] p
      = [{ OfferAnalyzer.mkBankRecord o p with rank := some 1 }] := by
  have hb : (o.type == "Bank Offer") = true := by simp [ht]
  have hb2 : (o.type != "Bank Offer") = false := by simp [ht]
  simp [OfferAnalyzer.rank_offers, h, List.filter, hb, hb2, stableSortDesc, stableInsertDesc,
    assignRanks]

theorem rank_offers_rawC2 : OfferAnalyzer.rank_offers geminiNone [rawC2] 5000 = [recC2] := by
  rw [rank_offers_singleton_bank geminiNone rawC2 offC2 5000 parse_offer_rawC2 (by decide)]
  have hscore : OfferAnalyzer.calculate_offer_score offC2 5000 = 100 := by
    simp only [OfferAnalyzer.calculate_offer_score, OfferAnalyzer.scoreBeforeInstant, offC2]
    norm_num
  have happ : OfferAnalyzer.applicability (some 6000) 1000 5000 = (5000, false) := by
    simp only [OfferAnalyzer.applicability]
    norm_num
  simp only [offC2] at hscore
  simp only [OfferAnalyzer.mkBankRecord, offC2, recC2, happ, hscore]

/-! ## Claim theorems -/

/-- C2: for every offer ranked by the amazon `rank_offers`, if its minimum
spend `m` is present and `p < m` the output record has `isApplicable = False`
and `netEffectivePrice = p`; otherwise `isApplicable = True` and
`netEffectivePrice = max (p - a) 0` (for every price `p ≥ 0`).  In particular
for amount 1000, price 5000, minSpend 6000 the single output record is
inapplicable with net price 5000, even though its clamped score is 100. -/
theorem C2_applicability_and_net_price :
    (∀ (g : String → String → Option String) (offers : List RawOffer) (p : ℚ), 0 ≤ p →
      ∀ r ∈ OfferAnalyzer.rank_offers g offers p,
        (r.net_effective_price, r.is_applicable) = claimedApplicability r.min_spend r.amount p)
    ∧ OfferAnalyzer.rank_offers geminiNone [rawC2] 5000 = [recC2]
    ∧ recC2.is_applicable = false ∧ recC2.net_effective_price = 5000
    ∧ recC2.score = some 100 := by
  refine ⟨?_, rank_offers_rawC2, rfl, rfl, rfl⟩
  intro g offers p hp r hr
  rw [(amazon_rank_record_shape hr).1]
  exact applicability_eq_claimed _ _ _ hp

/-- C2 witness: the general statement applied at the scenario input, with its
price-nonnegativity hypothesis discharged. -/
theorem C2_witness :
    (0 : ℚ) ≤ 5000
    ∧ ∀ r ∈ OfferAnalyzer.rank_offers geminiNone [rawC2] 5000,
        (r.net_effective_price, r.is_applicable) = claimedApplicability r.min_spend r.amount 5000 :=
  ⟨by norm_num, C2_applicability_and_net_price.1 geminiNone [rawC2] 5000 (by norm_num)⟩

/-- C3 counterexample: in the Flipkart `rank_offers`, a single non-bank offer
(with NO bank offers present) comes out with `score = 0.0` (its amount) and
`rank = 1`, refuting "every non-BankOffer record has score=None and
rank=None". -/
theorem C3_counterexample :
    ¬ (∀ r ∈ FlipkartOfferAnalyzer.rank_offers [rawNB] 1000,
        r.offer_type ≠ "Bank Offer" → r.score = none ∧ r.rank = none) := by
  intro h
  have hmem : ("Flipkart Offer", (some 0 : Option ℚ), (some 1 : Option ℕ))
      ∈ (FlipkartOfferAnalyzer.rank_offers [rawNB] 1000).map
          (fun r => (r.offer_type, r.score, r.rank)) := by
    have heval : (FlipkartOfferAnalyzer.rank_offers [rawNB] 1000).map
        (fun r => (r.offer_type, r.score, r.rank))
        = [("Flipkart Offer", (some 0 : Option ℚ), (some 1 : Option ℕ))] := by decide
    rw [heval]
    exact List.mem_singleton_self _
  obtain ⟨r, hr, hfr⟩ := List.mem_map.mp hmem
  rw [Prod.ext_iff, Prod.ext_iff] at hfr
  simp only at hfr
  have ht := hfr.1
  have hs := hfr.2.1
  have hnb : r.offer_type ≠ "Bank Offer" := by
    rw [ht]
    decide
  have := (h r hr hnb).1
  rw [this] at hs
  exact Option.noConfusion hs

/-- C3 (amended): in the amazon `rank_offers` every non-BankOffer record has
`score = None` and `rank = None`, unconditionally; in the Flipkart
`rank_offers` the same holds whenever at least one offer parses as a Bank
Offer (when none does, non-bank records are instead scored by amount and
ranked). -/
theorem C3_nonbank_unranked :
    (∀ (g : String → String → Option String) (offers : List RawOffer) (p : ℚ),
      ∀ r ∈ OfferAnalyzer.rank_offers g offers p,
        r.offer_type ≠ "Bank Offer" → r.score = none ∧ r.rank = none)
    ∧ (∀ (offers : List FlipkartRawOffer) (p : ℚ),
        (∃ raw ∈ offers, (FlipkartOfferAnalyzer.parse_offer raw).type = "Bank Offer") →
        ∀ r ∈ FlipkartOfferAnalyzer.rank_offers offers p,
          r.offer_type ≠ "Bank Offer" → r.score = none ∧ r.rank = none) :=
  ⟨fun _ _ _ _ hr => (amazon_rank_record_shape hr).2,
   fun _ _ hbank _ hr => flipkart_rank_nonbank_none hbank hr⟩

/-- C3 witness: both parts applied at concrete inputs — the Flipkart part on a
two-offer list whose first offer parses as a Bank Offer (hypothesis discharged
by computation), the amazon part on the C2 scenario input. -/
theorem C3_witness :
    (∃ raw ∈ [rawFB, rawNB], (FlipkartOfferAnalyzer.parse_offer raw).type = "Bank Offer")
    ∧ (∀ r ∈ FlipkartOfferAnalyzer.rank_offers [rawFB, rawNB] 1000,
        r.offer_type ≠ "Bank Offer" → r.score = none ∧ r.rank = none)
    ∧ (∀ r ∈ OfferAnalyzer.rank_offers geminiNone [rawC2] 5000,
        r.offer_type ≠ "Bank Offer" → r.score = none ∧ r.rank = none) := by
  have hex : ∃ raw ∈ [rawFB, rawNB], (FlipkartOfferAnalyzer.parse_offer raw).type = "Bank Offer" :=
    ⟨rawFB, List.mem_cons_self _ _, by decide⟩
  exact ⟨hex, C3_nonbank_unranked.2 [rawFB, rawNB] 1000 hex,
    C3_nonbank_unranked.1 geminiNone [rawC2] 5000⟩

/-- C4: the per-page stock outcome of the Flipkart scraper is the claimed
tri-state with strict priority — the sold-out marker forces OutOfStock even
when offers were extracted; otherwise extracted offers give InStock; otherwise
Unknown — where InStock/OutOfStock/Unknown are encoded as the
`True`/`False`/`None` values of the `in_stock` field.  In particular a page
with both the marker and offers is OutOfStock. -/
theorem C4_stock_priority :
    (∀ sold_out_found offers_found,
      flipkartInStockField sold_out_found offers_found
        = (stockStateSpec sold_out_found offers_found).toInStockField)
    ∧ stockStateSpec true true = StockState.OutOfStock
    ∧ flipkartInStockField true true = some false := by
  refine ⟨?_, rfl, rfl⟩
  decide

/-- C1 counterexample: the claim's formula (base 80, discount bonus,
minimum-spend adjustment, +5 when instant, clamp) does NOT compute the cited
Flipkart `calculate_offer_score`: on a Bank Offer with no extracted amount, no
bank and `isInstant = True` at price 100, the Flipkart scorer returns
80+20−5 = 95 (bank-reputation penalty, no instant bonus) while the claimed
formula returns min(80+20+5, 100) = 100. -/
theorem C1_counterexample :
    FlipkartOfferAnalyzer.calculate_offer_score c1FlipOffer 100
      ≠ claimedBankOfferScore c1FlipOffer.amount c1FlipOffer.min_spend 100
          c1FlipOffer.is_instant := by
  have h1 : FlipkartOfferAnalyzer.calculate_offer_score c1FlipOffer 100 = 95 := by
    norm_num [FlipkartOfferAnalyzer.calculate_offer_score, OfferAnalyzer.scoreBeforeInstant,
      c1FlipOffer]
  have h2 : claimedBankOfferScore c1FlipOffer.amount c1FlipOffer.min_spend 100
      c1FlipOffer.is_instant = 100 := by
    norm_num [claimedBankOfferScore, claimedBankOfferScoreRaw, claimedAdjustedScore, c1FlipOffer]
  rw [h1, h2]
  norm_num

/-- C1 (amended): the amazon `OfferAnalyzer.calculate_offer_score` computes,
for every Bank Offer and every positive price, exactly the claimed formula —
clamp to [0,100] of: base 80, plus `min(a/p·100·2, 50)` when `p>0, a>0`, plus
the minimum-spend adjustment, plus 5 when instant.  In particular for
amount 2000, price 20000, no minimum spend, instant, the raw score is 125 and
the returned score is 100.  (The Flipkart analyzer's variant differs — see the
counterexample: it has no instant bonus and applies a bank-reputation
adjustment instead.) -/
theorem C1_amazon_score_matches_spec :
    (∀ (o : Offer) (p : ℚ), o.type = "Bank Offer" → 0 < p →
      OfferAnalyzer.calculate_offer_score o p
        = claimedBankOfferScore o.amount o.min_spend p o.is_instant)
    ∧ claimedBankOfferScoreRaw 2000 none 20000 true = 125
    ∧ OfferAnalyzer.calculate_offer_score c1ScenarioOffer 20000 = 100 := by
  refine ⟨?_, ?_, ?_⟩
  · intro o p ht hp
    unfold OfferAnalyzer.calculate_offer_score claimedBankOfferScore claimedBankOfferScoreRaw
    rw [if_neg (by simp [ht])]
    dsimp only
    rw [scoreBeforeInstant_eq_claimedAdjusted o p hp]
  · norm_num [claimedBankOfferScoreRaw, claimedAdjustedScore]
  · norm_num [OfferAnalyzer.calculate_offer_score, OfferAnalyzer.scoreBeforeInstant,
      c1ScenarioOffer]

/-- C1 witness: the equivalence applied to the scenario offer at price 20000,
with its two hypotheses discharged. -/
theorem C1_witness :
    c1ScenarioOffer.type = "Bank Offer" ∧ (0 : ℚ) < 20000
    ∧ OfferAnalyzer.calculate_offer_score c1ScenarioOffer 20000
        = claimedBankOfferScore c1ScenarioOffer.amount c1ScenarioOffer.min_spend 20000
            c1ScenarioOffer.is_instant :=
  ⟨rfl, by norm_num,
   C1_amazon_score_matches_spec.1 c1ScenarioOffer 20000 rfl (by norm_num)⟩

/-- C5 counterexample: `rank_offers` consults the Gemini network API through
`parse_offer` when local extraction finds no bank, so identical `(offers,
price)` inputs produce different outputs under different API responses — a
hidden dependence that refutes the determinism claim as stated.  Here the
output record's bank is `HDFC Bank` under one oracle and `None` under
another. -/
theorem C5_counterexample :
    OfferAnalyzer.rank_offers geminiHDFC [rawC5] 100
      ≠ OfferAnalyzer.rank_offers geminiNone [rawC5] 100 :=
  fun h => absurd (congrArg (List.map RankedOffer.bank) h) (by decide)

theorem parse_offer_oracle_indep (g₁ g₂ : String → String → Option String) (raw : RawOffer)
    (h : geminiFree raw) :
    OfferAnalyzer.parse_offer g₁ raw = OfferAnalyzer.parse_offer g₂ raw := by
  unfold OfferAnalyzer.parse_offer
  dsimp only
  rcases h with hd | ⟨hb, hc⟩
  · rw [hd]
    simp
  · obtain ⟨b, hbv⟩ := Option.ne_none_iff_exists'.mp hb
    obtain ⟨c, hcv⟩ := Option.ne_none_iff_exists'.mp hc
    rw [hbv, hcv]
    simp

/-- C5 (amended): with the Gemini API responses made an explicit oracle input,
`rank_offers` is a pure function; whenever no offer consults the oracle (its
stripped description is empty, or bank and card type are both found locally),
the output is independent of the oracle — identical `(offers, price)` inputs
then always give identical output. -/
theorem C5_deterministic_without_gemini :
    ∀ (g₁ g₂ : String → String → Option String) (offers : List RawOffer) (p : ℚ),
      (∀ raw ∈ offers, geminiFree raw) →
      OfferAnalyzer.rank_offers g₁ offers p = OfferAnalyzer.rank_offers g₂ offers p := by
  intro g₁ g₂ offers p h
  unfold OfferAnalyzer.rank_offers
  have hmap : offers.map (OfferAnalyzer.parse_offer g₁)
      = offers.map (OfferAnalyzer.parse_offer g₂) :=
    List.map_congr_left (fun raw hraw => parse_offer_oracle_indep g₁ g₂ raw (h raw hraw))
  rw [hmap]

/-- C5 witness: two different oracles on a whitespace-only description (which
never triggers a Gemini call), with the oracle-freeness hypothesis
discharged. -/
theorem C5_witness :
    (∀ raw ∈ [rawBlank], geminiFree raw)
    ∧ OfferAnalyzer.rank_offers geminiHDFC [rawBlank] 7
        = OfferAnalyzer.rank_offers geminiNone [rawBlank] 7 := by
  have hfree : ∀ raw ∈ [rawBlank], geminiFree raw := by
    intro raw hraw
    rw [List.mem_singleton] at hraw
    subst hraw
    left
    decide
  exact ⟨hfree, C5_deterministic_without_gemini geminiHDFC geminiNone [rawBlank] 7 hfree⟩

/-- C6: with a cache hit (URL in the visited log or the cache), processing a
store link short-circuits — no Extractor invocation, and the unchanged cached
snapshot fields are applied onto the store link; and processing the same fresh
URL twice makes exactly one Extractor invocation (the second pass finds it
visited). -/
theorem C6_cached_urls_skip_extractor :
    (∀ (E : String → StoreLinkFields → StoreLinkFields) (st : ScanState)
        (link : StoreLinkFields) (url : String),
      (st.visited.contains url || (lookupAssoc st.cache url).isSome) = true →
        (process_store_link E st link url).1.extractorCalls = st.extractorCalls
        ∧ ∀ c, lookupAssoc st.cache url = some c →
            (process_store_link E st link url).2 = apply_cached_result_to_store_link link c)
    ∧ (∀ (E : String → StoreLinkFields → StoreLinkFields) (st : ScanState)
        (l1 l2 : StoreLinkFields) (url : String),
      st.visited.contains url = false → lookupAssoc st.cache url = none →
        (process_store_link E (process_store_link E st l1 url).1 l2 url).1.extractorCalls
          = st.extractorCalls + 1) := by
  constructor
  · intro E st link url h
    unfold process_store_link
    rw [if_pos h]
    refine ⟨rfl, ?_⟩
    intro c hc
    rw [hc]
  · intro E st l1 l2 url h1 h2
    have hcond : (st.visited.contains url || (lookupAssoc st.cache url).isSome) = false := by
      rw [h1, h2]
      rfl
    have hstep1 : (process_store_link E st l1 url).1
        = { visited := url :: st.visited,
            cache := (url, extract_store_link_snapshot (E url l1)) :: st.cache,
            extractorCalls := st.extractorCalls + 1 } := by
      unfold process_store_link
      rw [if_neg (by rw [hcond]; simp)]
    rw [hstep1]
    unfold process_store_link
    rw [if_pos (by simp)]

/-- C6 witness: the cache-hit part applied to a state whose cache holds the
URL, and the process-twice part applied to the empty state; hypotheses
discharged by computation. -/
theorem C6_witness :
    (stC6.visited.contains "u" || (lookupAssoc stC6.cache "u").isSome) = true
    ∧ (process_store_link extractorKeep stC6 {} "u").1.extractorCalls = stC6.extractorCalls
    ∧ (process_store_link extractorKeep stC6 {} "u").2
        = apply_cached_result_to_store_link {} snapC6
    ∧ (process_store_link extractorKeep
        (process_store_link extractorKeep scanState0 {} "u").1 {} "u").1.extractorCalls
        = scanState0.extractorCalls + 1 := by
  have h := C6_cached_urls_skip_extractor.1 extractorKeep stC6 {} "u" (by decide)
  exact ⟨by decide, h.1, h.2 snapC6 (by decide),
    C6_cached_urls_skip_extractor.2 extractorKeep scanState0 {} {} "u" rfl rfl⟩

/-- C7 counterexample: the merge step appends a record for a matching platform
URL even though the master/final dataset is empty — the master record count
grows, refuting "never fabricates records absent from the master". -/
theorem C7_counterexample :
    (URLMapper.merge_platform_data "amazon.in" [entryC7] []).length
      ≠ ([] : List PEntry).length := by
  decide

/-- C7 (amended): `merge_platform_data` never consults or modifies the
existing final dataset — it appends one copy of the containing source entry
per matching platform URL: the prior records are preserved as a prefix, the
length grows by exactly the number of matches, and every appended record is
the source entry of some matching URL. -/
theorem C7_merge_appends_per_match :
    ∀ (ident : String) (data final : List PEntry),
      (URLMapper.merge_platform_data ident data final).take final.length = final
      ∧ (URLMapper.merge_platform_data ident data final).length
          = final.length + (URLMapper.find_platform_urls data ident).length
      ∧ ∀ e ∈ (URLMapper.merge_platform_data ident data final).drop final.length,
          ∃ u : String, (e, u) ∈ URLMapper.find_platform_urls data ident := by
  intro ident data final
  unfold URLMapper.merge_platform_data
  refine ⟨?_, ?_, ?_⟩
  · rw [List.take_left]
  · simp
  · intro e he
    rw [List.drop_left] at he
    obtain ⟨⟨e', u⟩, hm, he'⟩ := List.mem_map.mp he
    simp only at he'
    subst he'
    exact ⟨u, hm⟩

/-- C7 witness: the append contract applied to a one-entry shard with one
matching Amazon store link and an empty final dataset. -/
theorem C7_witness :
    (URLMapper.merge_platform_data "amazon.in" [entryC7] []).length
      = ([] : List PEntry).length + (URLMapper.find_platform_urls [entryC7] "amazon.in").length
    ∧ (URLMapper.find_platform_urls [entryC7] "amazon.in").length = 1
    ∧ ∀ e ∈ (URLMapper.merge_platform_data "amazon.in" [entryC7] []).drop
        ([] : List PEntry).length,
        ∃ u : String, (e, u) ∈ URLMapper.find_platform_urls [entryC7] "amazon.in" :=
  ⟨(C7_merge_appends_per_match "amazon.in" [entryC7] []).2.1, by decide,
   (C7_merge_appends_per_match "amazon.in" [entryC7] []).2.2⟩

/-- C8: `extract_bank` scans `bank_name_patterns` in dict-insertion order, not
longest-pattern-first — on a description containing the longer canonical
pattern `Central Bank of India` (of the provider of that name), the earlier
entry `Bank of India` wins via its shorter pattern, although the code's own
comment says "longest first to avoid partial matches" and the spec requires
the bank whose longest pattern occurs. -/
theorem C8_shorter_pattern_of_other_bank_wins :
    OfferAnalyzer.extract_bank "Central Bank of India offer" = some "Bank of India"
    ∧ pyIn (pyLower "Central Bank of India") (pyLower "Central Bank of India offer") = true
    ∧ ("Central Bank of India", ["Central Bank", "Central Bank of India"])
        ∈ amazonBankNamePatterns
    ∧ ¬ ("Central Bank of India".length ≤ "Bank of India".length) :=
  ⟨by decide, by decide, by decide, by decide⟩

/-- C9 counterexample: five consecutive fully-unclassified task failures (no
`ERROR_DETECTION_CONFIG` keyword applies) never escalate — each one RESETS the
persistent-error counter to zero, so the loop does not pause, refuting the
claim for unclassified failures. -/
theorem C9_counterexample :
    detect_error_type unclassifiedMsg
      = { is_chrome_driver_error := false, is_http_connection_error := false,
          is_file_descriptor_error := false, is_session_error := false,
          is_max_retry_error := false, requires_driver_restart := false,
          requires_resource_cleanup := false }
    ∧ (run_error_sequence 0 (List.replicate 5 (detect_error_type unclassifiedMsg))).2
        = false :=
  ⟨by decide, by decide⟩

/-- C9 (amended): whenever 5 or more consecutive CRITICAL task failures occur
(chrome-driver, http-connection, file-descriptor or session errors per
`detect_error_type`), the loop escalates: it saves the working dataset to a
progress file, persists the cache (`save_progress_and_pause`) and returns,
halting the run.  Unclassified failures instead reset the counter. -/
theorem C9_critical_failures_escalate :
    ∀ (cnt : ℕ) (es : List DetectedError),
      (∀ e ∈ es, isCriticalPersistentError e = true) → 1 ≤ es.length →
      5 ≤ cnt + es.length → (run_error_sequence cnt es).2 = true := by
  intro cnt es
  induction es generalizing cnt with
  | nil =>
    intro _ h1 _
    simp at h1
  | cons e es ih =>
    intro hall _ h5
    unfold run_error_sequence persistent_error_step
    rw [if_pos (hall e (List.mem_cons_self _ _))]
    dsimp only
    by_cases hc : 5 ≤ cnt + 1
    · rw [if_pos hc]
    · rw [if_neg hc]
      refine ih (cnt + 1) (fun x hx => hall x (List.mem_cons_of_mem _ hx)) ?_ ?_
      · simp only [List.length_cons] at h5
        omega
      · simp only [List.length_cons] at h5
        omega

/-- C9 witness: five consecutive chrome-driver failures from a zero counter,
with all three hypotheses discharged by computation. -/
theorem C9_witness :
    (∀ e ∈ List.replicate 5 (detect_error_type criticalMsg),
        isCriticalPersistentError e = true)
    ∧ 1 ≤ (List.replicate 5 (detect_error_type criticalMsg)).length
    ∧ 5 ≤ 0 + (List.replicate 5 (detect_error_type criticalMsg)).length
    ∧ (run_error_sequence 0 (List.replicate 5 (detect_error_type criticalMsg))).2 = true := by
  have hall : ∀ e ∈ List.replicate 5 (detect_error_type criticalMsg),
      isCriticalPersistentError e = true := by
    intro e he
    rw [List.eq_of_mem_replicate he]
    decide
  exact ⟨hall, by decide, by decide,
    C9_critical_failures_escalate 0 _ hall (by decide) (by decide)⟩

/-- C10: `parse_offer` (amazon, and the identical JioMart flag) sets
`is_instant = True` for every offer whose description does not contain
`cashback`, even when `instant` never appears; and in the amazon scorer every
instant Bank Offer's score is the clamp of its pre-instant score plus 5. -/
theorem C10_no_cashback_means_instant :
    (∀ (g : String → String → Option String) (raw : RawOffer),
      pyIn "cashback" (pyLower (pyStrip raw.offer_description)) = false →
      (OfferAnalyzer.parse_offer g raw).is_instant = true)
    ∧ (∀ d : String, pyIn "cashback" (pyLower d) = false → jiomartIsInstant d = true)
    ∧ (∀ (o : Offer) (p : ℚ), o.is_instant = true → o.type = "Bank Offer" →
        OfferAnalyzer.calculate_offer_score o p
          = max 0 (min 100 (OfferAnalyzer.scoreBeforeInstant o p + 5))) := by
  refine ⟨?_, ?_, ?_⟩
  · intro g raw h
    simp only [OfferAnalyzer.parse_offer]
    simp [h]
  · intro d h
    simp [jiomartIsInstant, h]
  · intro o p hi ht
    simp only [OfferAnalyzer.calculate_offer_score]
    rw [if_neg (by simp [ht])]
    rw [hi]
    simp

/-- C10 witness: a description without `cashback` (and without `instant`)
yields `is_instant = True` in both parsers, and the +5 instant bonus shows up
in the amazon scorer at the C1 scenario offer. -/
theorem C10_witness :
    pyIn "cashback" (pyLower (pyStrip rawC5.offer_description)) = false
    ∧ pyIn "instant" (pyLower (pyStrip rawC5.offer_description)) = false
    ∧ (OfferAnalyzer.parse_offer geminiNone rawC5).is_instant = true
    ∧ jiomartIsInstant "wonderful mega deal" = true
    ∧ OfferAnalyzer.calculate_offer_score c1ScenarioOffer 20000
        = max 0 (min 100 (OfferAnalyzer.scoreBeforeInstant c1ScenarioOffer 20000 + 5)) :=
  ⟨by decide, by decide,
   C10_no_cashback_means_instant.1 geminiNone rawC5 (by decide),
   C10_no_cashback_means_instant.2.1 _ (by decide),
   C10_no_cashback_means_instant.2.2 c1ScenarioOffer 20000 rfl rfl⟩
